import Mathlib

/-!
Verification development for the OpenHEXA MCP server
(`src/openhexa_mcp_server.py`).

The Python module is a set of thin façade functions over a GraphQL
transport.  We shallowly embed the JSON data flowing through the
façades as an inductive `JValue`, embed the Python dictionary/`.get`
navigation (including its exception behaviour) in an `Except String`
monad, and embed each tool function as a Lean function from its
arguments and the transport's response to the returned dictionary
together with the list (or number) of transport invocations it makes.
The transport itself is an external collaborator; a tool receives the
outcome of each remote call it would make as an explicit
`Except String _` argument (`.error m` models the SDK raising an
exception with text `m`).
-/

/-- JSON-like values as returned by `result.json()` and produced by
`model_dump()` in the source.  Objects are insertion-ordered key/value
lists, mirroring Python dictionaries. -/
inductive JValue where
  | null : JValue
  | bool : Bool → JValue
  | num : Int → JValue
  | str : String → JValue
  | arr : List JValue → JValue
  | obj : List (String × JValue) → JValue
deriving Repr

mutual

/-- Structural equality on `JValue`, embedding Python `==` on JSON data. -/
def jeq : JValue → JValue → Bool
  | .null, .null => true
  | .bool a, .bool b => a == b
  | .num a, .num b => a == b
  | .str a, .str b => a == b
  | .arr a, .arr b => jeqList a b
  | .obj a, .obj b => jeqFields a b
  | _, _ => false

def jeqList : List JValue → List JValue → Bool
  | [], [] => true
  | a :: as, b :: bs => jeq a b && jeqList as bs
  | _, _ => false

def jeqFields : List (String × JValue) → List (String × JValue) → Bool
  | [], [] => true
  | (ka, va) :: as, (kb, vb) :: bs => ka == kb && jeq va vb && jeqFields as bs
  | _, _ => false

end

/-- First-match association lookup on an object's field list (Python
dictionaries have unique keys, so first match is the key's value). -/
def lookupF (fs : List (String × JValue)) (k : String) : Option JValue :=
  match fs with
  | [] => none
  | (k0, v) :: rest => if k0 = k then some v else lookupF rest k

/-- Lookup of a key on a `JValue`, `none` when the value is not an
object or lacks the key. -/
def JValue.lookupJ : JValue → String → Option JValue
  | .obj fs, k => lookupF fs k
  | _, _ => none

/-- The keys of an object output, in order; `[]` for non-objects. -/
def keysOf : JValue → List String
  | .obj fs => fs.map Prod.fst
  | _ => []

/-- Python truthiness (`if x:`) on JSON data: `None`, `False`, `0`,
`""`, `[]` and `{}` are falsy. -/
def JValue.truthy : JValue → Bool
  | .null => false
  | .bool b => b
  | .num n => n != 0
  | .str s => s ≠ ""
  | .arr xs => !xs.isEmpty
  | .obj fs => !fs.isEmpty

/-- Embedding of `d.get(key, default)`: raises (`.error`) when the
receiver is not a dictionary, mirroring Python's `AttributeError`. -/
def pyGetD (v : JValue) (k : String) (dflt : JValue) : Except String JValue :=
  match v with
  | .obj fs => .ok ((lookupF fs k).getD dflt)
  | _ => .error "AttributeError: object has no attribute get"

/-- Embedding of the one-argument `d.get(key)` (default `None`). -/
def pyGet1 (v : JValue) (k : String) : Except String JValue :=
  pyGetD v k .null

/-- Embedding of subscription `d[key]`: `KeyError` when the key is
absent, `TypeError` when the receiver is not a dictionary. -/
def pyIndex (v : JValue) (k : String) : Except String JValue :=
  match v with
  | .obj fs =>
    match lookupF fs k with
    | some x => .ok x
    | none => .error ("KeyError: " ++ k)
  | _ => .error "TypeError: object is not subscriptable"

/-- Does the character list start with the given needle? -/
def startsWithL : List Char → List Char → Bool
  | [], _ => true
  | _ :: _, [] => false
  | a :: as, b :: bs => a == b && startsWithL as bs

/-- Does the character list contain the needle as a contiguous run? -/
def hasSubL (needle : List Char) : List Char → Bool
  | [] => startsWithL needle []
  | b :: bs => startsWithL needle (b :: bs) || hasSubL needle bs

/-- Embedding of Python's substring test `needle in haystack`. -/
def strContainsSub (haystack needle : String) : Bool :=
  hasSubL needle.data haystack.data

/-- Embedding of the membership test `key in response`: key test on
dictionaries, element test on lists, substring test on strings,
`TypeError` otherwise. -/
def pyContains (v : JValue) (k : String) : Except String Bool :=
  match v with
  | .obj fs => .ok (lookupF fs k).isSome
  | .arr xs => .ok (xs.any (fun x => jeq x (.str k)))
  | .str s => .ok (strContainsSub s k)
  | _ => .error "TypeError: argument is not iterable"

/-- Embedding of `len(x)`: defined for lists, strings and
dictionaries, `TypeError` otherwise. -/
def pyLen : JValue → Except String Nat
  | .arr xs => .ok xs.length
  | .str s => .ok s.length
  | .obj fs => .ok fs.length
  | _ => .error "TypeError: object has no len"

/-- Embedding of iteration `for x in v`: list elements, string
characters, dictionary keys; `TypeError` otherwise. -/
def pyIter : JValue → Except String (List JValue)
  | .arr xs => .ok xs
  | .str s => .ok (s.data.map (fun c => JValue.str (String.mk [c])))
  | .obj fs => .ok (fs.map (fun f => JValue.str f.1))
  | _ => .error "TypeError: object is not iterable"

/-- Embedding of `x.lower()`: only strings have `lower`. -/
def pyLower : JValue → Except String String
  | .str s => .ok s.toLower
  | _ => .error "AttributeError: object has no attribute lower"

mutual

/-- Rendering of a JSON value inside a Python f-string (`str()` /
`repr()`-style), used by the source's error messages such as
`f"GraphQL error: {response_data['errors']}"`. -/
def renderJ : JValue → String
  | .null => "None"
  | .bool true => "True"
  | .bool false => "False"
  | .num n => toString n
  | .str s => "\x27" ++ s ++ "\x27"
  | .arr xs => "[" ++ renderList xs ++ "]"
  | .obj fs => "\x7b" ++ renderFields fs ++ "\x7d"

def renderList : List JValue → String
  | [] => ""
  | [x] => renderJ x
  | x :: y :: rest => renderJ x ++ ", " ++ renderList (y :: rest)

def renderFields : List (String × JValue) → String
  | [] => ""
  | [(k, v)] => "\x27" ++ k ++ "\x27: " ++ renderJ v
  | (k, v) :: f :: rest => "\x27" ++ k ++ "\x27: " ++ renderJ v ++ ", " ++ renderFields (f :: rest)

end

/-- The fixed configuration-missing result every tool returns when
`OPENHEXA_AVAILABLE` is false. -/
def configError : JValue :=
  .obj [("error", .str "OpenHEXA SDK not available. Please configure your OpenHEXA credentials.")]

/-- A single-key error dictionary `{"error": m}`. -/
def errObj (m : String) : JValue := .obj [("error", .str m)]

/-- Outcome of an SDK paged-list accessor such as
`openhexa.workspaces(page=..., per_page=...)`: either it raises
(`.error`), or it returns a page whose `items` have already been
passed through `model_dump()` together with the page's `total_pages`
attribute. -/
def PageResult : Type := Except String (List JValue × JValue)

/-- Outcome of an SDK single-object accessor such as
`openhexa.workspace(slug=...)`: either it raises, or it returns
`None` (`.ok none`) or an object whose `model_dump()` is the given
value. -/
def ObjResult : Type := Except String (Option JValue)

/-- Outcome of `openhexa.execute(query, variables)` followed by
`result.json()`: either some step raises, or a JSON document. -/
def ExecResult : Type := Except String JValue

/-- A recorded invocation of `openhexa.execute`: the GraphQL document
and the variables dictionary that were sent. -/
structure Call where
  query : String
  vars : JValue

/-! ### Tools backed by SDK convenience accessors -/

/-- Embedding of `list_workspaces`.  The second component counts the
remote SDK invocations the call performs. -/
def list_workspaces (avail : Bool) (page per_page : Int) (resp : PageResult) : JValue × Nat :=
  if avail then
    match resp with
    | .error e => (errObj e, 1)
    | .ok (items, totalPages) =>
      (.obj [("workspaces", .arr items), ("total_pages", totalPages),
             ("current_page", .num page), ("per_page", .num per_page),
             ("count", .num items.length)], 1)
  else (configError, 0)

/-- Embedding of `get_workspace_details`. -/
def get_workspace_details (avail : Bool) (workspace_slug : String) (resp : ObjResult) : JValue × Nat :=
  if avail then
    match resp with
    | .error e => (errObj e, 1)
    | .ok (some w) => (w, 1)
    | .ok none => (errObj ("Workspace \x27" ++ workspace_slug ++ "\x27 not found"), 1)
  else (configError, 0)

/-- The filter predicate of `list_datasets`' workspace scoping:
`d.get("workspace", {}).get("slug") == workspace_slug`. -/
def dsWsFilter (ws : String) (d : JValue) : Except String Bool := do
  let w ← pyGetD d "workspace" (.obj [])
  let s ← pyGet1 w "slug"
  pure (jeq s (.str ws))

/-- Left-to-right effectful filter, embedding a Python list
comprehension with a possibly raising condition. -/
def filterE (p : α → Except String Bool) : List α → Except String (List α)
  | [] => .ok []
  | x :: xs => do
    let b ← p x
    let rest ← filterE p xs
    pure (if b then x :: rest else rest)

/-- Embedding of `list_datasets`. -/
def list_datasets (avail : Bool) (page per_page : Int) (workspace_slug : Option String)
    (resp : PageResult) : JValue × Nat :=
  if avail then
    match resp with
    | .error e => (errObj e, 1)
    | .ok (items, totalPages) =>
      let body : Except String JValue := do
        let ds ←
          if (workspace_slug.getD "") ≠ "" then
            filterE (dsWsFilter (workspace_slug.getD "")) items
          else pure items
        pure (.obj [("datasets", .arr ds), ("total_pages", totalPages),
                    ("current_page", .num page), ("per_page", .num per_page),
                    ("count", .num ds.length)])
      match body with
      | .ok v => (v, 1)
      | .error e => (errObj e, 1)
  else (configError, 0)

/-- Embedding of `get_dataset_details`. -/
def get_dataset_details (avail : Bool) (dataset_id : String) (resp : ObjResult) : JValue × Nat :=
  if avail then
    match resp with
    | .error e => (errObj e, 1)
    | .ok (some d) => (d, 1)
    | .ok none => (errObj ("Dataset with ID \x27" ++ dataset_id ++ "\x27 not found"), 1)
  else (configError, 0)

/-- Embedding of `list_pipelines`. -/
def list_pipelines (avail : Bool) (workspace_slug : String) (page per_page : Int)
    (resp : PageResult) : JValue × Nat :=
  if avail then
    match resp with
    | .error e => (errObj e, 1)
    | .ok (items, totalPages) =>
      (.obj [("pipelines", .arr items), ("total_pages", totalPages),
             ("current_page", .num page), ("per_page", .num per_page),
             ("count", .num items.length)], 1)
  else (configError, 0)

/-- Embedding of `get_pipeline_details`. -/
def get_pipeline_details (avail : Bool) (workspace_slug pipeline_code : String)
    (resp : ObjResult) : JValue × Nat :=
  if avail then
    match resp with
    | .error e => (errObj e, 1)
    | .ok (some p) => (p, 1)
    | .ok none =>
      (errObj ("Pipeline \x27" ++ pipeline_code ++ "\x27 not found in workspace \x27"
        ++ workspace_slug ++ "\x27"), 1)
  else (configError, 0)

/-- Outcome of `openhexa.pipeline(...)` followed by `.runs`: raise,
pipeline missing, or the `model_dump()`s of `runs.items`. -/
def RunsResult : Type := Except String (Option (List JValue))

/-- Embedding of `get_pipeline_runs`. -/
def get_pipeline_runs (avail : Bool) (workspace_slug pipeline_code : String)
    (resp : RunsResult) : JValue × Nat :=
  if avail then
    match resp with
    | .error e => (errObj e, 1)
    | .ok (some runs) => (.obj [("runs", .arr runs), ("count", .num runs.length)], 1)
    | .ok none =>
      (errObj ("Pipeline \x27" ++ pipeline_code ++ "\x27 not found in workspace \x27"
        ++ workspace_slug ++ "\x27"), 1)
  else (configError, 0)

/-- Embedding of `list_workspace_members` (`openhexa.get_users`
returns a plain list of member models). -/
def list_workspace_members (avail : Bool) (workspace_slug : String)
    (resp : Except String (List JValue)) : JValue × Nat :=
  if avail then
    match resp with
    | .error e => (errObj e, 1)
    | .ok ms => (.obj [("members", .arr ms), ("count", .num ms.length)], 1)
  else (configError, 0)

/-! ### GraphQL documents sent by the `execute`-based tools.
The source writes them as indented multi-line string literals; the
embedding collapses the whitespace to single spaces, which does not
affect any property stated below. -/

/-- The `createPipeline` mutation document of `create_pipeline`. -/
def createQueryText : String :=
  "mutation createPipeline($input: CreatePipelineInput!) \x7b createPipeline(input: $input) \x7b success errors pipeline \x7b id name code type workspace \x7b slug \x7d \x7d \x7d \x7d"

/-- The `uploadPipeline` mutation document of `create_pipeline`. -/
def uploadQueryText : String :=
  "mutation uploadPipeline($input: UploadPipelineInput!) \x7b uploadPipeline(input: $input) \x7b success errors \x7d \x7d"

/-- The query document of `list_connections`. -/
def connectionsQueryText : String :=
  "query WorkspaceConnections($slug: String!) \x7b workspace(slug: $slug) \x7b connections \x7b id name slug description type createdAt updatedAt user \x7b id displayName email \x7d fields \x7b code value secret \x7d \x7d \x7d \x7d"

/-- The query document of `list_webapps`. -/
def webappsQueryText : String :=
  "query WorkspaceWebapps($slug: String!, $page: Int = 1, $perPage: Int = 10) \x7b workspace(slug: $slug) \x7b webapps(page: $page, perPage: $perPage) \x7b items \x7b id name description url icon isFavorite createdAt createdBy \x7b id displayName email \x7d permissions \x7b delete update \x7d \x7d pageNumber totalItems totalPages \x7d \x7d \x7d"

/-- The query document of `list_dataset_versions`. -/
def datasetVersionsQueryText : String :=
  "query getDataset($id: ID!) \x7b dataset(id: $id) \x7b versions \x7b items \x7b id name changelog createdAt createdBy \x7b id displayName email \x7d \x7d \x7d \x7d \x7d"

/-- The query document of `get_dataset_version_details`. -/
def versionDetailsQueryText : String :=
  "query getDatasetVersion($id: ID!) \x7b datasetVersion(id: $id) \x7b id name changelog createdAt createdBy \x7b id displayName email \x7d files \x7b items \x7b id size createdAt \x7d \x7d \x7d \x7d"

/-- The query document of `list_dataset_files`. -/
def datasetFilesQueryText : String :=
  "query getDataset($id: ID!) \x7b dataset(id: $id) \x7b versions \x7b items \x7b id name files \x7b items \x7b id size createdAt \x7d \x7d \x7d \x7d \x7d \x7d"

/-- The query document of `get_dataset_file_details`. -/
def fileDetailsQueryText : String :=
  "query getFile($id: ID!) \x7b datasetVersionFile(id: $id) \x7b id filename size contentType createdAt createdBy \x7b id displayName email \x7d downloadUrl uri \x7d \x7d"

/-- The query document of `search_datasets`. -/
def searchDatasetsQueryText : String :=
  "query searchDatasets($query: String, $page: Int!, $perPage: Int!) \x7b datasets(query: $query, page: $page, perPage: $perPage) \x7b items \x7b id name slug description createdAt updatedAt createdBy \x7b id displayName email \x7d \x7d totalItems totalPages \x7d \x7d"

/-- The query document of `list_datasets_by_creator`.  Note that the
document and its variables carry no creator predicate: the creator
filter is applied client-side after the page is fetched. -/
def byCreatorQueryText : String :=
  "query datasetsByCreator($page: Int!, $perPage: Int!) \x7b datasets(page: $page, perPage: $perPage) \x7b items \x7b id name slug description createdAt updatedAt createdBy \x7b id displayName email \x7d \x7d totalItems totalPages \x7d \x7d"

/-- The query document of `preview_dataset_file`. -/
def previewQueryText : String :=
  "query GetDatasetVersionFileSample($id: ID!) \x7b datasetVersionFile(id: $id) \x7b id properties fileSample \x7b sample status statusReason __typename \x7d __typename \x7d \x7d"

/-- Common frame of the `execute`-based tools: the availability gate,
the single `openhexa.execute` invocation, and the enclosing
`try/except` that maps any raised exception text `e` through the
tool's `wrap` message.  `body` is the code that inspects the parsed
JSON response. -/
def runTool (avail : Bool) (wrap : String → String) (call : Call)
    (resp : ExecResult) (body : JValue → Except String JValue) : JValue × List Call :=
  if avail then
    match resp with
    | .error e => (errObj (wrap e), [call])
    | .ok r =>
      match body r with
      | .ok v => (v, [call])
      | .error e => (errObj (wrap e), [call])
  else (configError, [])

/-- Response handling of `list_connections`. -/
def connectionsBody (workspace_slug : String) (r : JValue) : Except String JValue := do
  let hasErr ← pyContains r "errors"
  if hasErr then
    let ev ← pyIndex r "errors"
    pure (errObj ("GraphQL error: " ++ renderJ ev))
  else do
    let data ← pyGetD r "data" (.obj [])
    let workspace ← pyGet1 data "workspace"
    if workspace.truthy = false then
      pure (errObj ("Workspace \x27" ++ workspace_slug ++ "\x27 not found"))
    else do
      let connections ← pyGetD workspace "connections" (.arr [])
      let n ← pyLen connections
      pure (.obj [("connections", connections), ("count", .num n)])

/-- Embedding of `list_connections`. -/
def list_connections (avail : Bool) (workspace_slug : String) (resp : ExecResult) :
    JValue × List Call :=
  runTool avail (fun e => "Failed to list connections: " ++ e)
    ⟨connectionsQueryText, .obj [("slug", .str workspace_slug)]⟩
    resp (connectionsBody workspace_slug)

/-- Response handling of `list_webapps`.  Note: the success dictionary
carries no `count` key (unlike the other listing tools). -/
def webappsBody (workspace_slug : String) (page : Int) (r : JValue) : Except String JValue := do
  let hasErr ← pyContains r "errors"
  if hasErr then
    let ev ← pyIndex r "errors"
    pure (errObj ("GraphQL error: " ++ renderJ ev))
  else do
    let data ← pyGetD r "data" (.obj [])
    let workspace ← pyGet1 data "workspace"
    if workspace.truthy = false then
      pure (errObj ("Workspace \x27" ++ workspace_slug ++ "\x27 not found"))
    else do
      let webapps_data ← pyGetD workspace "webapps" (.obj [])
      let items ← pyGetD webapps_data "items" (.arr [])
      let tp ← pyGetD webapps_data "totalPages" (.num 0)
      let ti ← pyGetD webapps_data "totalItems" (.num 0)
      let pn ← pyGetD webapps_data "pageNumber" (.num page)
      pure (.obj [("webapps", items), ("total_pages", tp),
                  ("total_items", ti), ("current_page", pn)])

/-- Embedding of `list_webapps`. -/
def list_webapps (avail : Bool) (workspace_slug : String) (page per_page : Int)
    (resp : ExecResult) : JValue × List Call :=
  runTool avail (fun e => "Failed to list webapps: " ++ e)
    ⟨webappsQueryText, .obj [("slug", .str workspace_slug), ("page", .num page),
      ("perPage", .num per_page)]⟩
    resp (webappsBody workspace_slug page)

/-- Response handling of `list_dataset_versions`. -/
def datasetVersionsBody (dataset_id : String) (r : JValue) : Except String JValue := do
  let hasErr ← pyContains r "errors"
  if hasErr then
    let ev ← pyIndex r "errors"
    pure (errObj ("GraphQL error: " ++ renderJ ev))
  else do
    let data ← pyGetD r "data" (.obj [])
    let dataset ← pyGet1 data "dataset"
    if dataset.truthy = false then
      pure (errObj ("Dataset \x27" ++ dataset_id ++ "\x27 not found"))
    else do
      let vsd ← pyGetD dataset "versions" (.obj [])
      let versions ← pyGetD vsd "items" (.arr [])
      let n ← pyLen versions
      pure (.obj [("versions", versions), ("count", .num n)])

/-- Embedding of `list_dataset_versions`. -/
def list_dataset_versions (avail : Bool) (dataset_id : String) (resp : ExecResult) :
    JValue × List Call :=
  runTool avail (fun e => "Failed to list dataset versions: " ++ e)
    ⟨datasetVersionsQueryText, .obj [("id", .str dataset_id)]⟩
    resp (datasetVersionsBody dataset_id)

/-- Response handling of `get_dataset_version_details`. -/
def versionDetailsBody (version_id : String) (r : JValue) : Except String JValue := do
  let hasErr ← pyContains r "errors"
  if hasErr then
    let ev ← pyIndex r "errors"
    pure (errObj ("GraphQL error: " ++ renderJ ev))
  else do
    let data ← pyGetD r "data" (.obj [])
    let version ← pyGet1 data "datasetVersion"
    if version.truthy = false then
      pure (errObj ("Dataset version \x27" ++ version_id ++ "\x27 not found"))
    else
      pure (.obj [("version", version)])

/-- Embedding of `get_dataset_version_details`. -/
def get_dataset_version_details (avail : Bool) (version_id : String) (resp : ExecResult) :
    JValue × List Call :=
  runTool avail (fun e => "Failed to get dataset version details: " ++ e)
    ⟨versionDetailsQueryText, .obj [("id", .str version_id)]⟩
    resp (versionDetailsBody version_id)

/-- In-place update or append of a key, matching Python dictionary
insertion semantics (an existing key keeps its position). -/
def setKey : List (String × JValue) → String → JValue → List (String × JValue)
  | [], k, v => [(k, v)]
  | (k0, v0) :: rest, k, v =>
    if k0 = k then (k0, v) :: rest else (k0, v0) :: setKey rest k v

/-- Fold of `setKey`, embedding a dict literal `{**base, k1: v1, ...}`. -/
def mergeFields (fs : List (String × JValue)) : List (String × JValue) → List (String × JValue)
  | [] => fs
  | (k, v) :: rest => mergeFields (setKey fs k v) rest

/-- One appended record of `list_dataset_files`' inner loop:
`{**file, "version_id": version["id"], "version_name": version["name"]}`. -/
def fileRecord (version file : JValue) : Except String JValue :=
  match file with
  | .obj fs => do
    let vid ← pyIndex version "id"
    let vname ← pyIndex version "name"
    pure (.obj (mergeFields fs [("version_id", vid), ("version_name", vname)]))
  | _ => .error "TypeError: argument after ** must be a mapping"

/-- The inner loop of `list_dataset_files` over one version's files. -/
def collectVersionFiles (version : JValue) : Except String (List JValue) := do
  let fsd ← pyGetD version "files" (.obj [])
  let fitems ← pyGetD fsd "items" (.arr [])
  let fl ← pyIter fitems
  fl.foldlM (fun acc file => do
    let rec0 ← fileRecord version file
    pure (acc ++ [rec0])) []

/-- The outer loop of `list_dataset_files` over the versions. -/
def collectFiles (vitems : List JValue) : Except String (List JValue) :=
  vitems.foldlM (fun acc v => do
    let fs ← collectVersionFiles v
    pure (acc ++ fs)) []

/-- Response handling of `list_dataset_files`.  On a GraphQL error
the result additionally carries the raw response under `"raw"`. -/
def datasetFilesBody (dataset_id : String) (r : JValue) : Except String JValue := do
  let hasErr ← pyContains r "errors"
  if hasErr then
    let ev ← pyIndex r "errors"
    pure (.obj [("error", .str ("GraphQL error: " ++ renderJ ev)), ("raw", r)])
  else do
    let data ← pyGetD r "data" (.obj [])
    let dataset ← pyGet1 data "dataset"
    if dataset.truthy = false then
      pure (errObj ("Dataset \x27" ++ dataset_id ++ "\x27 not found"))
    else do
      let vsd ← pyGetD dataset "versions" (.obj [])
      let vitems ← pyGetD vsd "items" (.arr [])
      let vl ← pyIter vitems
      let files ← collectFiles vl
      pure (.obj [("files", .arr files), ("count", .num files.length)])

/-- Embedding of `list_dataset_files`. -/
def list_dataset_files (avail : Bool) (dataset_id : String) (resp : ExecResult) :
    JValue × List Call :=
  runTool avail (fun e => "Failed to list dataset files: " ++ e)
    ⟨datasetFilesQueryText, .obj [("id", .str dataset_id)]⟩
    resp (datasetFilesBody dataset_id)

/-- Response handling of `get_dataset_file_details`. -/
def fileDetailsBody (file_id : String) (r : JValue) : Except String JValue := do
  let hasErr ← pyContains r "errors"
  if hasErr then
    let ev ← pyIndex r "errors"
    pure (errObj ("GraphQL error: " ++ renderJ ev))
  else do
    let data ← pyGetD r "data" (.obj [])
    let file ← pyGet1 data "datasetVersionFile"
    if file.truthy = false then
      pure (errObj ("File \x27" ++ file_id ++ "\x27 not found"))
    else
      pure (.obj [("file", file)])

/-- Embedding of `get_dataset_file_details`. -/
def get_dataset_file_details (avail : Bool) (file_id : String) (resp : ExecResult) :
    JValue × List Call :=
  runTool avail (fun e => "Failed to get file details: " ++ e)
    ⟨fileDetailsQueryText, .obj [("id", .str file_id)]⟩
    resp (fileDetailsBody file_id)

/-- Response handling of `search_datasets`. -/
def searchDatasetsBody (page per_page : Int) (r : JValue) : Except String JValue := do
  let hasErr ← pyContains r "errors"
  if hasErr then
    let ev ← pyIndex r "errors"
    pure (errObj ("GraphQL error: " ++ renderJ ev))
  else do
    let data ← pyGetD r "data" (.obj [])
    let datasets_info ← pyGetD data "datasets" (.obj [])
    let datasets ← pyGetD datasets_info "items" (.arr [])
    let total_items ← pyGetD datasets_info "totalItems" (.num 0)
    let total_pages ← pyGetD datasets_info "totalPages" (.num 0)
    let n ← pyLen datasets
    pure (.obj [("datasets", datasets), ("count", .num n),
                ("total_items", total_items), ("total_pages", total_pages),
                ("current_page", .num page), ("per_page", .num per_page)])

/-- Embedding of `search_datasets`. -/
def search_datasets (avail : Bool) (query_str : String) (page per_page : Int)
    (resp : ExecResult) : JValue × List Call :=
  runTool avail (fun e => "Failed to search datasets: " ++ e)
    ⟨searchDatasetsQueryText, .obj [("query", .str query_str), ("page", .num page),
      ("perPage", .num per_page)]⟩
    resp (searchDatasetsBody page per_page)

/-- The filter predicate of `list_datasets_by_creator`:
`d.get("createdBy", {}).get("email") == creator_email`. -/
def creatorMatch (creator_email : String) (d : JValue) : Except String Bool := do
  let c ← pyGetD d "createdBy" (.obj [])
  let em ← pyGet1 c "email"
  pure (jeq em (.str creator_email))

/-- Response handling of `list_datasets_by_creator`: the page is
fetched without any creator predicate and filtered client-side. -/
def byCreatorBody (creator_email : String) (page per_page : Int) (r : JValue) :
    Except String JValue := do
  let hasErr ← pyContains r "errors"
  if hasErr then
    let ev ← pyIndex r "errors"
    pure (errObj ("GraphQL error: " ++ renderJ ev))
  else do
    let data ← pyGetD r "data" (.obj [])
    let dsd ← pyGetD data "datasets" (.obj [])
    let items ← pyGetD dsd "items" (.arr [])
    let il ← pyIter items
    let filtered ← filterE (creatorMatch creator_email) il
    pure (.obj [("datasets", .arr filtered), ("count", .num filtered.length),
                ("current_page", .num page), ("per_page", .num per_page)])

/-- Embedding of `list_datasets_by_creator`. -/
def list_datasets_by_creator (avail : Bool) (creator_email : String) (page per_page : Int)
    (resp : ExecResult) : JValue × List Call :=
  runTool avail (fun e => "Failed to list datasets by creator: " ++ e)
    ⟨byCreatorQueryText, .obj [("page", .num page), ("perPage", .num per_page)]⟩
    resp (byCreatorBody creator_email page per_page)

/-- Response handling of `preview_dataset_file`.  On a GraphQL error
the result additionally carries the raw response under `"raw"`. -/
def previewBody (file_id : String) (r : JValue) : Except String JValue := do
  let hasErr ← pyContains r "errors"
  if hasErr then
    let ev ← pyIndex r "errors"
    pure (.obj [("error", .str ("GraphQL error: " ++ renderJ ev)), ("raw", r)])
  else do
    let data ← pyGetD r "data" (.obj [])
    let file_data ← pyGet1 data "datasetVersionFile"
    if file_data.truthy = false then
      pure (errObj ("File \x27" ++ file_id ++ "\x27 not found"))
    else do
      let sample_info ← pyGetD file_data "fileSample" .null
      let sample ← if sample_info.truthy then pyGet1 sample_info "sample" else pure .null
      let status ← if sample_info.truthy then pyGet1 sample_info "status" else pure .null
      let status_reason ←
        if sample_info.truthy then pyGet1 sample_info "statusReason" else pure .null
      let props ← pyGet1 file_data "properties"
      pure (.obj [("file_id", .str file_id), ("sample", sample), ("status", status),
                  ("status_reason", status_reason), ("properties", props)])

/-- Embedding of `preview_dataset_file`. -/
def preview_dataset_file (avail : Bool) (file_id : String) (resp : ExecResult) :
    JValue × List Call :=
  runTool avail (fun e => "Failed to preview file: " ++ e)
    ⟨previewQueryText, .obj [("id", .str file_id)]⟩
    resp (previewBody file_id)

/-! ### Pipeline packaging (`_create_pipeline_zipfile`)

The source builds an in-memory ZIP archive (`zipfile.ZipFile` with
`ZIP_DEFLATED`) holding the single member `pipeline.py`, and encodes
the archive bytes with `base64.b64encode`.  We model the archive as a
member table (`ZipArchive`), its byte serialization as a concrete
lossless encoding (`zipSerialize` — UTF-8 plus DEFLATE being
deterministic lossless byte transforms, they are modelled by the
varint character encoding), and base64 exactly (standard alphabet and
padding).  `now` stands for the wall-clock timestamp that
`ZipFile.writestr` stamps on the member, the only non-deterministic
part of the archive. -/

/-- One member of a ZIP archive: entry name, decompressed content,
and recorded modification time. -/
structure ZipEntry where
  name : String
  content : String
  mtime : Nat
deriving Repr

/-- A ZIP archive: its ordered member table. -/
structure ZipArchive where
  entries : List ZipEntry
deriving Repr

/-- Little-endian base-128 varint encoding of a natural number. -/
def varint (n : Nat) : List Nat :=
  if n < 128 then [n] else (128 + n % 128) :: varint (n / 128)
decreasing_by exact Nat.div_lt_self (by omega) (by omega)

/-- Inverse of `varint`, returning the decoded value and the rest. -/
def readVarint : List Nat → Option (Nat × List Nat)
  | [] => none
  | b :: rest =>
    if b < 128 then some (b, rest)
    else
      match readVarint rest with
      | some (m, r) => some (m * 128 + (b - 128), r)
      | none => none

/-- Serialization of a string as a length-prefixed character run. -/
def serString (s : String) : List Nat :=
  varint s.data.length ++ s.data.flatMap (fun c => varint c.toNat)

/-- Reads `n` varint-encoded characters. -/
def readChars : Nat → List Nat → Option (List Char × List Nat)
  | 0, bs => some ([], bs)
  | n + 1, bs =>
    match readVarint bs with
    | some (c, r) =>
      match readChars n r with
      | some (cs, r2) => some (Char.ofNat c :: cs, r2)
      | none => none
    | none => none

/-- Inverse of `serString`. -/
def readString (bs : List Nat) : Option (String × List Nat) :=
  match readVarint bs with
  | some (n, r) =>
    match readChars n r with
    | some (cs, r2) => some (String.mk cs, r2)
    | none => none
  | none => none

/-- Serialization of one archive member. -/
def serEntry (e : ZipEntry) : List Nat :=
  serString e.name ++ varint e.mtime ++ serString e.content

/-- Inverse of `serEntry`. -/
def readEntry (bs : List Nat) : Option (ZipEntry × List Nat) :=
  match readString bs with
  | some (nm, r1) =>
    match readVarint r1 with
    | some (t, r2) =>
      match readString r2 with
      | some (ct, r3) => some (⟨nm, ct, t⟩, r3)
      | none => none
    | none => none
  | none => none

/-- Reads `n` archive members. -/
def readEntries : Nat → List Nat → Option (List ZipEntry × List Nat)
  | 0, bs => some ([], bs)
  | n + 1, bs =>
    match readEntry bs with
    | some (e, r) =>
      match readEntries n r with
      | some (es, r2) => some (e :: es, r2)
      | none => none
    | none => none

/-- Byte serialization of the archive's member table. -/
def zipSerialize (a : ZipArchive) : List Nat :=
  varint a.entries.length ++ a.entries.flatMap serEntry

/-- Inverse of `zipSerialize`; `none` on any malformed byte string. -/
def zipDeserialize (bs : List Nat) : Option ZipArchive :=
  match readVarint bs with
  | some (n, r) =>
    match readEntries n r with
    | some (es, []) => some ⟨es⟩
    | _ => none
  | none => none

/-- The standard base64 alphabet. -/
def b64Alphabet : List Char :=
  "ABCDEFGHIJKLMNOPQRSTUVWXYZabcdefghijklmnopqrstuvwxyz0123456789+/".data

/-- The character encoding a 6-bit group. -/
def b64Char (n : Nat) : Char := b64Alphabet.getD n 'A'

/-- Index of a character in a list (first occurrence). -/
def findIdx0 (c : Char) : List Char → Option Nat
  | [] => none
  | a :: as => if a == c then some 0 else (findIdx0 c as).map (· + 1)

/-- The 6-bit group a base64 character stands for. -/
def b64Val (c : Char) : Option Nat := findIdx0 c b64Alphabet

/-- base64 encoding of a byte list, with `=` padding, as performed by
`base64.b64encode`. -/
def b64encBytes : List Nat → List Char
  | [] => []
  | [a] => [b64Char (a / 4), b64Char (a % 4 * 16), '=', '=']
  | [a, b] => [b64Char (a / 4), b64Char (a % 4 * 16 + b / 16), b64Char (b % 16 * 4), '=']
  | a :: b :: c :: rest =>
    b64Char (a / 4) :: b64Char (a % 4 * 16 + b / 16) :: b64Char (b % 16 * 4 + c / 64)
      :: b64Char (c % 64) :: b64encBytes rest

/-- base64 decoding of a character list; `none` on malformed input. -/
def b64decChars : List Char → Option (List Nat)
  | [] => some []
  | w :: x :: y :: z :: rest => do
    let a ← b64Val w
    let b ← b64Val x
    if y = '=' then
      if z = '=' ∧ rest = [] ∧ b % 16 = 0 then some [a * 4 + b / 16] else none
    else do
      let c ← b64Val y
      if z = '=' then
        if rest = [] ∧ c % 4 = 0 then some [a * 4 + b / 16, b % 16 * 16 + c / 4] else none
      else do
        let d ← b64Val z
        let tail ← b64decChars rest
        some ((a * 4 + b / 16) :: (b % 16 * 16 + c / 4) :: (c % 4 * 64 + d) :: tail)
  | _ => none

/-- base64 encoding to a string, as `base64.b64encode(...).decode("utf-8")`. -/
def b64encode (bs : List Nat) : String := String.mk (b64encBytes bs)

/-- base64 decoding of a string. -/
def b64decode (s : String) : Option (List Nat) := b64decChars s.data

/-- Embedding of `_create_pipeline_zipfile`: package `code_content`
as the sole member `pipeline.py` of an in-memory ZIP archive stamped
with the current time `now`, and base64-encode the archive bytes. -/
def _create_pipeline_zipfile (now : Nat) (code_content : String) : String :=
  b64encode (zipSerialize ⟨[⟨"pipeline.py", code_content, now⟩]⟩)

/-- Decoding pipeline used to state properties of the packaged
artifact: undo the base64 transport encoding, then parse the archive
bytes back into the member table. -/
def decodeArtifact (s : String) : Option ZipArchive :=
  (b64decode s).bind zipDeserialize

/-- The timestamp-free view of an archive: the (name, content) list. -/
def ZipArchive.members (a : ZipArchive) : List (String × String) :=
  a.entries.map (fun e => (e.name, e.content))

/-! ### `create_pipeline`: the two-step write protocol -/

/-- The upload description default: `description or "Created via MCP"`
(Python `or`, so an empty string also falls back to the default). -/
def descOrDefault : Option String → String
  | some s => if s ≠ "" then s else "Created via MCP"
  | none => "Created via MCP"

/-- The `create_input` dictionary: name and workspace always, plus
`functionalType` (lower-cased) when `functional_type` is truthy and
`tags` when `tags` is a non-empty list. -/
def createInputFields (workspace_slug name : String) (functional_type : Option String)
    (tags : Option (List String)) : List (String × JValue) :=
  let ci0 := [("name", JValue.str name), ("workspaceSlug", JValue.str workspace_slug)]
  let ci1 :=
    if (functional_type.getD "") ≠ "" then
      ci0 ++ [("functionalType", JValue.str (functional_type.getD "").toLower)]
    else ci0
  match tags with
  | some ts => if ts.isEmpty then ci1 else ci1 ++ [("tags", JValue.arr (ts.map JValue.str))]
  | none => ci1

/-- The recorded `createPipeline` transport invocation. -/
def createCallOf (workspace_slug name : String) (functional_type : Option String)
    (tags : Option (List String)) : Call :=
  ⟨createQueryText,
   .obj [("input", .obj (createInputFields workspace_slug name functional_type tags))]⟩

/-- Handling of the `createPipeline` response: `.inl d` is an early
return with dictionary `d`, `.inr (pipeline, pipeline_code)` continues
to the packaging and upload steps. -/
def createPhase1 (rd : JValue) : Except String (Sum JValue (JValue × JValue)) := do
  let hasErr ← pyContains rd "errors"
  if hasErr then
    let ev ← pyIndex rd "errors"
    pure (.inl (errObj ("GraphQL error: " ++ renderJ ev)))
  else do
    let data ← pyGetD rd "data" (.obj [])
    let create_result ← pyGetD data "createPipeline" (.obj [])
    let succ ← pyGet1 create_result "success"
    if succ.truthy = false then do
      let errs ← pyGetD create_result "errors" (.arr [])
      pure (.inl (errObj ("Failed to create pipeline: " ++ renderJ errs)))
    else do
      let pipeline ← pyGet1 create_result "pipeline"
      if pipeline.truthy = false then
        pure (.inl (errObj "Pipeline creation succeeded but no pipeline data returned"))
      else do
        let code ← pyIndex pipeline "code"
        pure (.inr (pipeline, code))

/-- The recorded `uploadPipeline` transport invocation. -/
def uploadCallOf (workspace_slug : String) (pipeline_code : JValue)
    (description : Option String) (zipfile_b64 : String) : Call :=
  ⟨uploadQueryText,
   .obj [("input", .obj
     [("workspaceSlug", .str workspace_slug), ("pipelineCode", pipeline_code),
      ("name", .str "Initial version"), ("description", .str (descOrDefault description)),
      ("zipfile", .str zipfile_b64)])]⟩

/-- Handling of the `uploadPipeline` response.  Both failure shapes
keep the already-created `pipeline` object and add the partial-failure
note. -/
def uploadPhase (pipeline : JValue) (name : String) (urd : JValue) :
    Except String JValue := do
  let hasErr ← pyContains urd "errors"
  if hasErr then
    let ev ← pyIndex urd "errors"
    pure (.obj [("error", .str ("GraphQL error during upload: " ++ renderJ ev)),
                ("pipeline", pipeline),
                ("note", .str "Pipeline was created but code upload failed")])
  else do
    let ud ← pyGetD urd "data" (.obj [])
    let upload_result_data ← pyGetD ud "uploadPipeline" (.obj [])
    let usucc ← pyGet1 upload_result_data "success"
    if usucc.truthy = false then do
      let errs ← pyGetD upload_result_data "errors" (.arr [])
      pure (.obj [("error", .str ("Failed to upload pipeline code: " ++ renderJ errs)),
                  ("pipeline", pipeline),
                  ("note", .str "Pipeline was created but code upload failed")])
    else
      pure (.obj [("success", .bool true), ("pipeline", pipeline),
                  ("message", .str ("Pipeline \x27" ++ name
                    ++ "\x27 created and code uploaded successfully"))])

/-- Embedding of `create_pipeline`.  `now` is the clock value used by
the ZIP packaging; `zipExc` models the possibility that
`_create_pipeline_zipfile` itself raises (the source wraps the call in
its own `try/except`): `.none` is the normal path, `some m` a raise
with message `m`.  `createResp`/`uploadResp` are the outcomes of the
two `openhexa.execute` invocations; the second component of the result
records, in order, the transport invocations actually performed. -/
def create_pipeline (avail : Bool) (workspace_slug name code_content : String)
    (description functional_type : Option String) (tags : Option (List String))
    (now : Nat) (zipExc : Option String)
    (createResp uploadResp : ExecResult) : JValue × List Call :=
  if avail then
    if workspace_slug = "" ∨ name = "" ∨ code_content = "" then
      (errObj "workspace_slug, name, and code_content are required", [])
    else
      let createCall := createCallOf workspace_slug name functional_type tags
      match createResp with
      | .error e => (errObj ("Failed to create pipeline: " ++ e), [createCall])
      | .ok rd =>
        match createPhase1 rd with
        | .error e => (errObj ("Failed to create pipeline: " ++ e), [createCall])
        | .ok (.inl d) => (d, [createCall])
        | .ok (.inr (pipeline, pipeline_code)) =>
          match (match zipExc with
                 | some m => Except.error m
                 | none => Except.ok (_create_pipeline_zipfile now code_content)) with
          | .error e =>
            (.obj [("error", .str ("Failed to create ZIP file: " ++ e)),
                   ("pipeline", pipeline),
                   ("note", .str "Pipeline was created but code upload failed")], [createCall])
          | .ok zb =>
            let uploadCall := uploadCallOf workspace_slug pipeline_code description zb
            match uploadResp with
            | .error e => (errObj ("Failed to create pipeline: " ++ e), [createCall, uploadCall])
            | .ok urd =>
              match uploadPhase pipeline name urd with
              | .ok v => (v, [createCall, uploadCall])
              | .error e => (errObj ("Failed to create pipeline: " ++ e), [createCall, uploadCall])
  else (configError, [])

/-! ### `search_resources` -/

/-- The per-entry match of `search_resources`: the query, lower-cased,
is a substring of the entry's lower-cased name, or else of its
lower-cased description (Python `or` short-circuits, so the
description is only touched when the name does not match). -/
def matchEntry (query : String) (item : JValue) : Except String Bool := do
  let nm ← pyGetD item "name" (.str "")
  let nmL ← pyLower nm
  if strContainsSub nmL query.toLower then pure true
  else do
    let ds ← pyGetD item "description" (.str "")
    let dsL ← pyLower ds
    pure (strContainsSub dsL query.toLower)

/-- One fan-out branch of `search_resources`: guard on the helper
output's `success` key, then scan the entries under `listKey`,
appending `{"type": tag, "resource": entry}` for each match.  For the
dataset branch (`nested = true`) the entry is first unwrapped via
`dataset.get("dataset", dataset)`. -/
def searchScan (query tag listKey : String) (nested : Bool) (helperOut : JValue)
    (acc : List JValue) : Except String (List JValue) := do
  let succ ← pyGet1 helperOut "success"
  if succ.truthy then do
    let lst ← pyGetD helperOut listKey (.arr [])
    let xs ← pyIter lst
    xs.foldlM (fun acc2 item => do
      let entry ← if nested then pyGetD item "dataset" item else pure item
      let m ← matchEntry query entry
      pure (if m then acc2 ++ [JValue.obj [("type", .str tag), ("resource", entry)]] else acc2))
      acc
  else pure acc

/-- Embedding of `search_resources`: up to three sequential delegated
listing calls (workspaces, datasets, pipelines), each guarded by the
`resource_type` filter, feeding `searchScan`.  The second component
counts the remote invocations made by the delegated calls. -/
def search_resources (avail : Bool) (query : String)
    (resource_type workspace_slug : Option String)
    (wsResp dsResp plResp : PageResult) : JValue × Nat :=
  if avail then
    let rts := resource_type.getD ""
    let step1 : Except String (List JValue) × Nat :=
      if rts = "" ∨ rts = "workspace" then
        let h := list_workspaces avail 1 10 wsResp
        (searchScan query "workspace" "workspaces" false h.1 [], h.2)
      else (Except.ok [], 0)
    match step1 with
    | (.error e, c1) => (errObj ("Failed to search resources: " ++ e), c1)
    | (.ok r1, c1) =>
      let step2 : Except String (List JValue) × Nat :=
        if rts = "" ∨ rts = "dataset" then
          let h := list_datasets avail 1 10 workspace_slug dsResp
          (searchScan query "dataset" "datasets" true h.1 r1, h.2)
        else (Except.ok r1, 0)
      match step2 with
      | (.error e, c2) => (errObj ("Failed to search resources: " ++ e), c1 + c2)
      | (.ok r2, c2) =>
        let step3 : Except String (List JValue) × Nat :=
          if rts = "" ∨ rts = "pipeline" then
            let h := list_pipelines avail (workspace_slug.getD "") 1 10 plResp
            (searchScan query "pipeline" "pipelines" false h.1 r2, h.2)
          else (Except.ok r2, 0)
        match step3 with
        | (.error e, c3) => (errObj ("Failed to search resources: " ++ e), c1 + c2 + c3)
        | (.ok r3, c3) =>
          (.obj [("success", .bool true), ("query", .str query),
                 ("results", .arr r3), ("count", .num r3.length)], c1 + c2 + c3)
  else (configError, 0)

/-! ### Reduction lemmas for the `Except` embedding -/

/-- A successful bind reduces to the continuation. -/
@[simp] theorem exceptBind_ok {α β : Type} (a : α) (f : α → Except String β) :
    (Except.ok a >>= f) = f a := rfl

/-- A raised exception short-circuits the rest of the block. -/
@[simp] theorem exceptBind_error {α β : Type} (e : String) (f : α → Except String β) :
    ((Except.error e : Except String α) >>= f) = .error e := rfl

/-- `pure` produces a successful value. -/
@[simp] theorem exceptPure {α : Type} (a : α) : (pure a : Except String α) = .ok a := rfl

/-- Mapping over a successful value. -/
@[simp] theorem exceptMap_ok {α β : Type} (f : α → β) (a : α) :
    (f <$> (Except.ok a : Except String α)) = .ok (f a) := rfl

/-- Mapping over a raised exception. -/
@[simp] theorem exceptMap_error {α β : Type} (f : α → β) (e : String) :
    (f <$> (Except.error e : Except String α)) = .error e := rfl

/-! ### Round-trip lemmas for the packaged artifact -/

/-- `readVarint` undoes `varint` and leaves the rest untouched. -/
theorem readVarint_varint (n : Nat) (rest : List Nat) :
    readVarint (varint n ++ rest) = some (n, rest) := by
  induction n using Nat.strong_induction_on with
  | _ n ih =>
    rw [varint]
    by_cases h : n < 128
    · simp [h, readVarint]
    · rw [if_neg h, List.cons_append]
      have h2 : ¬ (128 + n % 128 < 128) := by omega
      simp only [readVarint, if_neg h2,
        ih (n / 128) (Nat.div_lt_self (by omega) (by omega))]
      simp only [Option.some.injEq, Prod.mk.injEq]
      exact ⟨by omega, trivial⟩

/-- `varint` only emits bytes. -/
theorem varint_bytes_lt (n : Nat) : ∀ b ∈ varint n, b < 256 := by
  induction n using Nat.strong_induction_on with
  | _ n ih =>
    rw [varint]
    by_cases h : n < 128
    · simp [h]; omega
    · rw [if_neg h]
      intro b hb
      rcases List.mem_cons.mp hb with h1 | h2
      · omega
      · exact ih (n / 128) (Nat.div_lt_self (by omega) (by omega)) b h2

/-- `readChars` undoes the character-run serialization. -/
theorem readChars_ser (cs : List Char) (rest : List Nat) :
    readChars cs.length (cs.flatMap (fun c => varint c.toNat) ++ rest) = some (cs, rest) := by
  induction cs with
  | nil => simp [readChars]
  | cons c cs ih =>
    simp only [List.flatMap_cons, List.length_cons, List.append_assoc, readChars,
      readVarint_varint, ih, Char.ofNat_toNat]

/-- `readString` undoes `serString`. -/
theorem readString_ser (s : String) (rest : List Nat) :
    readString (serString s ++ rest) = some (s, rest) := by
  simp only [readString, serString, List.append_assoc, readVarint_varint, readChars_ser]

/-- `readEntry` undoes `serEntry`. -/
theorem readEntry_ser (e : ZipEntry) (rest : List Nat) :
    readEntry (serEntry e ++ rest) = some (e, rest) := by
  simp only [readEntry, serEntry, List.append_assoc, readString_ser, readVarint_varint]

/-- `readEntries` undoes the member-table serialization. -/
theorem readEntries_ser (es : List ZipEntry) (rest : List Nat) :
    readEntries es.length (es.flatMap serEntry ++ rest) = some (es, rest) := by
  induction es with
  | nil => simp [readEntries]
  | cons e es ih =>
    simp only [List.flatMap_cons, List.length_cons, List.append_assoc, readEntries,
      readEntry_ser, ih]

/-- Deserializing a serialized archive restores it exactly. -/
theorem zip_roundtrip (a : ZipArchive) : zipDeserialize (zipSerialize a) = some a := by
  simp only [zipDeserialize, zipSerialize]
  rw [show a.entries.flatMap serEntry = a.entries.flatMap serEntry ++ []
       from (List.append_nil _).symm,
     readVarint_varint]
  simp only [readEntries_ser]

/-- The base64 alphabet decodes back to the encoded 6-bit group. -/
theorem b64Val_b64Char : ∀ n < 64, b64Val (b64Char n) = some n := by decide

/-- No alphabet character is the padding character. -/
theorem b64Char_ne_pad : ∀ n < 64, b64Char n ≠ '=' := by decide

/-- base64 decoding undoes base64 encoding of any byte list. -/
theorem b64_roundtrip (bs : List Nat) (h : ∀ b ∈ bs, b < 256) :
    b64decChars (b64encBytes bs) = some bs := by
  induction bs using b64encBytes.induct with
  | case1 => rfl
  | case2 a =>
    have ha : a < 256 := h a (by simp)
    have h1 : a / 4 < 64 := by omega
    have h2 : a % 4 * 16 < 64 := by omega
    have h3 : (a % 4 * 16) % 16 = 0 := by omega
    simp only [b64encBytes, b64decChars]
    rw [b64Val_b64Char _ h1, b64Val_b64Char _ h2]
    simp [h3]
    omega
  | case3 a b =>
    have ha : a < 256 := h a (by simp)
    have hb : b < 256 := h b (by simp)
    have h1 : a / 4 < 64 := by omega
    have h2 : a % 4 * 16 + b / 16 < 64 := by omega
    have h3 : b % 16 * 4 < 64 := by omega
    have h4 : (b % 16 * 4) % 4 = 0 := by omega
    have hne3 := b64Char_ne_pad _ h3
    have hv3 := b64Val_b64Char _ h3
    simp only [b64encBytes, b64decChars]
    rw [b64Val_b64Char _ h1, b64Val_b64Char _ h2]
    simp [hne3, hv3, h4]
    omega
  | case4 a b c rest ih =>
    have ha : a < 256 := h a (by simp)
    have hb : b < 256 := h b (by simp)
    have hc : c < 256 := h c (by simp)
    have hrest : ∀ x ∈ rest, x < 256 := fun x hx => h x (by simp [hx])
    have h1 : a / 4 < 64 := by omega
    have h2 : a % 4 * 16 + b / 16 < 64 := by omega
    have h3 : b % 16 * 4 + c / 64 < 64 := by omega
    have h4 : c % 64 < 64 := by omega
    have hne3 := b64Char_ne_pad _ h3
    have hne4 := b64Char_ne_pad _ h4
    have hv3 := b64Val_b64Char _ h3
    have hv4 := b64Val_b64Char _ h4
    simp only [b64encBytes, b64decChars]
    rw [b64Val_b64Char _ h1, b64Val_b64Char _ h2]
    simp [hne3, hne4, hv3, hv4, ih hrest]
    omega

/-- `serString` only emits bytes. -/
theorem serString_bytes_lt (s : String) : ∀ b ∈ serString s, b < 256 := by
  intro b hb
  rcases List.mem_append.mp hb with h1 | h2
  · exact varint_bytes_lt _ b h1
  · rcases List.mem_flatMap.mp h2 with ⟨c, _, hc⟩
    exact varint_bytes_lt _ b hc

/-- `serEntry` only emits bytes. -/
theorem serEntry_bytes_lt (e : ZipEntry) : ∀ b ∈ serEntry e, b < 256 := by
  intro b hb
  rcases List.mem_append.mp hb with h1 | h2
  · rcases List.mem_append.mp h1 with h3 | h4
    · exact serString_bytes_lt _ b h3
    · exact varint_bytes_lt _ b h4
  · exact serString_bytes_lt _ b h2

/-- `zipSerialize` only emits bytes. -/
theorem zipSerialize_bytes_lt (a : ZipArchive) : ∀ b ∈ zipSerialize a, b < 256 := by
  intro b hb
  rcases List.mem_append.mp hb with h1 | h2
  · exact varint_bytes_lt _ b h1
  · rcases List.mem_flatMap.mp h2 with ⟨e, _, he⟩
    exact serEntry_bytes_lt _ b he

/-- Decoding the packaged artifact restores the single-member archive
with the packaged source text and the packaging timestamp. -/
theorem decodeArtifact_zip (now : Nat) (code : String) :
    decodeArtifact (_create_pipeline_zipfile now code) =
      some ⟨[⟨"pipeline.py", code, now⟩]⟩ := by
  unfold decodeArtifact _create_pipeline_zipfile b64decode b64encode
  rw [show (String.mk (b64encBytes (zipSerialize ⟨[⟨"pipeline.py", code, now⟩]⟩))).data
        = b64encBytes (zipSerialize ⟨[⟨"pipeline.py", code, now⟩]⟩) from rfl,
     b64_roundtrip _ (zipSerialize_bytes_lt _)]
  simp [zip_roundtrip]

/-! ### Branch lemmas for the tool embeddings -/

/-- When available, an `execute`-based tool makes exactly one
transport invocation, whatever the outcome. -/
theorem runTool_calls (w : String → String) (c : Call) (r : ExecResult)
    (b : JValue → Except String JValue) : (runTool true w c r b).2 = [c] := by
  rcases r with e | rv
  · rfl
  · simp only [runTool]
    rcases hb : b rv with e | v <;> simp [hb]

/-- `list_connections` on a clean response with a connection list. -/
theorem list_connections_ok (ws : String) (fs dfs wfs : List (String × JValue))
    (cs : List JValue)
    (he : lookupF fs "errors" = none)
    (hd : lookupF fs "data" = some (.obj dfs))
    (hw : lookupF dfs "workspace" = some (.obj wfs))
    (hne : wfs.isEmpty = false)
    (hc : lookupF wfs "connections" = some (.arr cs)) :
    list_connections true ws (.ok (.obj fs)) =
      (.obj [("connections", .arr cs), ("count", .num cs.length)],
       [⟨connectionsQueryText, .obj [("slug", .str ws)]⟩]) := by
  simp [list_connections, runTool, connectionsBody, pyContains, pyGetD, pyGet1, pyIndex,
    pyLen, JValue.truthy, he, hd, hw, hne, hc]

/-- `list_dataset_versions` on a clean response with a version list. -/
theorem list_dataset_versions_ok (did : String) (fs dfs dsfs vfs : List (String × JValue))
    (vs : List JValue)
    (he : lookupF fs "errors" = none)
    (hd : lookupF fs "data" = some (.obj dfs))
    (hds : lookupF dfs "dataset" = some (.obj dsfs))
    (hnt : (JValue.obj dsfs).truthy = true)
    (hv : lookupF dsfs "versions" = some (.obj vfs))
    (hvi : lookupF vfs "items" = some (.arr vs)) :
    list_dataset_versions true did (.ok (.obj fs)) =
      (.obj [("versions", .arr vs), ("count", .num vs.length)],
       [⟨datasetVersionsQueryText, .obj [("id", .str did)]⟩]) := by
  simp [list_dataset_versions, runTool, datasetVersionsBody, pyContains, pyGetD, pyGet1,
    pyIndex, pyLen, he, hd, hds, hnt, hv, hvi]

/-- `list_dataset_files` on a clean response: the flattened file list
and its length. -/
theorem list_dataset_files_ok (did : String) (fs dfs dsfs vfs : List (String × JValue))
    (vl fl : List JValue)
    (he : lookupF fs "errors" = none)
    (hd : lookupF fs "data" = some (.obj dfs))
    (hds : lookupF dfs "dataset" = some (.obj dsfs))
    (hnt : (JValue.obj dsfs).truthy = true)
    (hv : lookupF dsfs "versions" = some (.obj vfs))
    (hvi : lookupF vfs "items" = some (.arr vl))
    (hcf : collectFiles vl = .ok fl) :
    list_dataset_files true did (.ok (.obj fs)) =
      (.obj [("files", .arr fl), ("count", .num fl.length)],
       [⟨datasetFilesQueryText, .obj [("id", .str did)]⟩]) := by
  simp [list_dataset_files, runTool, datasetFilesBody, pyContains, pyGetD, pyGet1,
    pyIndex, pyIter, he, hd, hds, hnt, hv, hvi, hcf]

/-- `list_webapps` on a clean response: the webapp list with paging
metadata — and no `count` key. -/
theorem list_webapps_ok (ws : String) (p pp : Int) (fs dfs wfs wad : List (String × JValue))
    (items tp ti pn : JValue)
    (he : lookupF fs "errors" = none)
    (hd : lookupF fs "data" = some (.obj dfs))
    (hw : lookupF dfs "workspace" = some (.obj wfs))
    (hnt : (JValue.obj wfs).truthy = true)
    (hwa : lookupF wfs "webapps" = some (.obj wad))
    (hit : lookupF wad "items" = some items)
    (htp : lookupF wad "totalPages" = some tp)
    (hti : lookupF wad "totalItems" = some ti)
    (hpn : lookupF wad "pageNumber" = some pn) :
    list_webapps true ws p pp (.ok (.obj fs)) =
      (.obj [("webapps", items), ("total_pages", tp), ("total_items", ti),
             ("current_page", pn)],
       [⟨webappsQueryText, .obj [("slug", .str ws), ("page", .num p),
          ("perPage", .num pp)]⟩]) := by
  simp [list_webapps, runTool, webappsBody, pyContains, pyGetD, pyGet1, pyIndex,
    he, hd, hw, hnt, hwa, hit, htp, hti, hpn]

/-- `search_datasets` on a clean response. -/
theorem search_datasets_ok (q : String) (p pp : Int) (fs dfs dsfs : List (String × JValue))
    (ti tp : JValue) (xs : List JValue)
    (he : lookupF fs "errors" = none)
    (hd : lookupF fs "data" = some (.obj dfs))
    (hds : lookupF dfs "datasets" = some (.obj dsfs))
    (hit : lookupF dsfs "items" = some (.arr xs))
    (hti : lookupF dsfs "totalItems" = some ti)
    (htp : lookupF dsfs "totalPages" = some tp) :
    search_datasets true q p pp (.ok (.obj fs)) =
      (.obj [("datasets", .arr xs), ("count", .num xs.length),
             ("total_items", ti), ("total_pages", tp),
             ("current_page", .num p), ("per_page", .num pp)],
       [⟨searchDatasetsQueryText, .obj [("query", .str q), ("page", .num p),
          ("perPage", .num pp)]⟩]) := by
  simp [search_datasets, runTool, searchDatasetsBody, pyContains, pyGetD, pyGet1, pyIndex,
    pyLen, he, hd, hds, hit, hti, htp]

/-- `list_datasets` with a workspace filter that evaluates cleanly. -/
theorem list_datasets_filtered_ok (p pp : Int) (ws : String) (items : List JValue)
    (tp : JValue) (ys : List JValue)
    (hws : ws ≠ "")
    (hfe : filterE (dsWsFilter ws) items = .ok ys) :
    list_datasets true p pp (some ws) (.ok (items, tp)) =
      (.obj [("datasets", .arr ys), ("total_pages", tp), ("current_page", .num p),
             ("per_page", .num pp), ("count", .num ys.length)], 1) := by
  simp [list_datasets, hws, hfe]

/-- `list_datasets` whose workspace filter raises. -/
theorem ld_filter_err (p pp : Int) (ws : String) (items : List JValue) (tp : JValue)
    (e : String) (hws : ws ≠ "")
    (hfe : filterE (dsWsFilter ws) items = .error e) :
    list_datasets true p pp (some ws) (.ok (items, tp)) = (errObj e, 1) := by
  simp [list_datasets, hws, hfe]

/-- `list_datasets_by_creator` on a clean response, stated against the
raw effectful filter. -/
theorem by_creator_raw (email : String) (p pp : Int) (fs dfs dsfs : List (String × JValue))
    (xs ys : List JValue)
    (he : lookupF fs "errors" = none)
    (hd : lookupF fs "data" = some (.obj dfs))
    (hds : lookupF dfs "datasets" = some (.obj dsfs))
    (hit : lookupF dsfs "items" = some (.arr xs))
    (hfe : filterE (creatorMatch email) xs = .ok ys) :
    list_datasets_by_creator true email p pp (.ok (.obj fs)) =
      (.obj [("datasets", .arr ys), ("count", .num ys.length),
             ("current_page", .num p), ("per_page", .num pp)],
       [⟨byCreatorQueryText, .obj [("page", .num p), ("perPage", .num pp)]⟩]) := by
  simp [list_datasets_by_creator, runTool, byCreatorBody, pyContains, pyGetD, pyGet1,
    pyIndex, pyIter, he, hd, hds, hit, hfe]

/-- `create_pipeline` rejects empty required arguments before any
transport invocation. -/
theorem cp_validation (ws n cc : String) (d ft : Option String) (tg : Option (List String))
    (now : Nat) (ze : Option String) (cr ur : ExecResult)
    (h : ws = "" ∨ n = "" ∨ cc = "") :
    create_pipeline true ws n cc d ft tg now ze cr ur =
      (errObj "workspace_slug, name, and code_content are required", []) := by
  simp [create_pipeline, h]

/-- `create_pipeline` when the `createPipeline` call raises. -/
theorem cp_exn (ws n cc : String) (d ft : Option String) (tg : Option (List String))
    (now : Nat) (ze : Option String) (m : String) (ur : ExecResult)
    (hws : ws ≠ "") (hn : n ≠ "") (hcc : cc ≠ "") :
    create_pipeline true ws n cc d ft tg now ze (.error m) ur =
      (errObj ("Failed to create pipeline: " ++ m), [createCallOf ws n ft tg]) := by
  simp [create_pipeline, hws, hn, hcc]

/-- `create_pipeline` when the `createPipeline` response carries a
GraphQL `errors` key: early return, create call only. -/
theorem cp_graphql_err (ws n cc : String) (d ft : Option String) (tg : Option (List String))
    (now : Nat) (ze : Option String) (ur : ExecResult)
    (fs : List (String × JValue)) (ev : JValue)
    (hws : ws ≠ "") (hn : n ≠ "") (hcc : cc ≠ "")
    (he : lookupF fs "errors" = some ev) :
    create_pipeline true ws n cc d ft tg now ze (.ok (.obj fs)) ur =
      (errObj ("GraphQL error: " ++ renderJ ev), [createCallOf ws n ft tg]) := by
  simp [create_pipeline, createPhase1, pyContains, pyIndex, hws, hn, hcc, he]

/-- `create_pipeline` when the creation mutation reports a falsy
`success`: early return with the reported errors, create call only. -/
theorem cp_create_failed (ws n cc : String) (d ft : Option String) (tg : Option (List String))
    (now : Nat) (ze : Option String) (ur : ExecResult)
    (fs dfs crfs : List (String × JValue))
    (hws : ws ≠ "") (hn : n ≠ "") (hcc : cc ≠ "")
    (he : lookupF fs "errors" = none)
    (hd : lookupF fs "data" = some (.obj dfs))
    (hcr : lookupF dfs "createPipeline" = some (.obj crfs))
    (hsucc : ((lookupF crfs "success").getD .null).truthy = false) :
    create_pipeline true ws n cc d ft tg now ze (.ok (.obj fs)) ur =
      (errObj ("Failed to create pipeline: "
          ++ renderJ ((lookupF crfs "errors").getD (.arr []))),
       [createCallOf ws n ft tg]) := by
  simp [create_pipeline, createPhase1, pyContains, pyGetD, pyGet1, pyIndex,
    hws, hn, hcc, he, hd, hcr, hsucc]

/-- `create_pipeline` when creation succeeds but no pipeline object is
returned. -/
theorem cp_no_pipeline (ws n cc : String) (d ft : Option String) (tg : Option (List String))
    (now : Nat) (ze : Option String) (ur : ExecResult)
    (fs dfs crfs : List (String × JValue))
    (hws : ws ≠ "") (hn : n ≠ "") (hcc : cc ≠ "")
    (he : lookupF fs "errors" = none)
    (hd : lookupF fs "data" = some (.obj dfs))
    (hcr : lookupF dfs "createPipeline" = some (.obj crfs))
    (hsucc : ((lookupF crfs "success").getD .null).truthy = true)
    (hpl : ((lookupF crfs "pipeline").getD .null).truthy = false) :
    create_pipeline true ws n cc d ft tg now ze (.ok (.obj fs)) ur =
      (errObj "Pipeline creation succeeded but no pipeline data returned",
       [createCallOf ws n ft tg]) := by
  simp [create_pipeline, createPhase1, pyContains, pyGetD, pyGet1, pyIndex,
    hws, hn, hcc, he, hd, hcr, hsucc, hpl]

/-- `create_pipeline` when creation succeeded but ZIP packaging
raises: error plus the created pipeline plus the note; no upload. -/
theorem cp_zip_failed (ws n cc : String) (d ft : Option String) (tg : Option (List String))
    (now : Nat) (zm : String) (ur : ExecResult)
    (fs dfs crfs plfs : List (String × JValue)) (pcode : JValue)
    (hws : ws ≠ "") (hn : n ≠ "") (hcc : cc ≠ "")
    (he : lookupF fs "errors" = none)
    (hd : lookupF fs "data" = some (.obj dfs))
    (hcr : lookupF dfs "createPipeline" = some (.obj crfs))
    (hsucc : ((lookupF crfs "success").getD .null).truthy = true)
    (hpl : lookupF crfs "pipeline" = some (.obj plfs))
    (hplt : (JValue.obj plfs).truthy = true)
    (hcode : lookupF plfs "code" = some pcode) :
    create_pipeline true ws n cc d ft tg now (some zm) (.ok (.obj fs)) ur =
      (.obj [("error", .str ("Failed to create ZIP file: " ++ zm)),
             ("pipeline", .obj plfs),
             ("note", .str "Pipeline was created but code upload failed")],
       [createCallOf ws n ft tg]) := by
  simp [create_pipeline, createPhase1, pyContains, pyGetD, pyGet1, pyIndex,
    hws, hn, hcc, he, hd, hcr, hsucc, hpl, hplt, hcode]

/-- `create_pipeline` when the upload response carries a GraphQL
`errors` key: error plus the created pipeline plus the note. -/
theorem cp_upload_graphql_err (ws n cc : String) (d ft : Option String)
    (tg : Option (List String)) (now : Nat)
    (fs dfs crfs plfs ufs : List (String × JValue)) (pcode uev : JValue)
    (hws : ws ≠ "") (hn : n ≠ "") (hcc : cc ≠ "")
    (he : lookupF fs "errors" = none)
    (hd : lookupF fs "data" = some (.obj dfs))
    (hcr : lookupF dfs "createPipeline" = some (.obj crfs))
    (hsucc : ((lookupF crfs "success").getD .null).truthy = true)
    (hpl : lookupF crfs "pipeline" = some (.obj plfs))
    (hplt : (JValue.obj plfs).truthy = true)
    (hcode : lookupF plfs "code" = some pcode)
    (hue : lookupF ufs "errors" = some uev) :
    create_pipeline true ws n cc d ft tg now none (.ok (.obj fs)) (.ok (.obj ufs)) =
      (.obj [("error", .str ("GraphQL error during upload: " ++ renderJ uev)),
             ("pipeline", .obj plfs),
             ("note", .str "Pipeline was created but code upload failed")],
       [createCallOf ws n ft tg,
        uploadCallOf ws pcode d (_create_pipeline_zipfile now cc)]) := by
  simp [create_pipeline, createPhase1, uploadPhase, pyContains, pyGetD, pyGet1, pyIndex,
    hws, hn, hcc, he, hd, hcr, hsucc, hpl, hplt, hcode, hue]

/-- `create_pipeline` when the upload mutation reports a falsy
`success`: error plus the created pipeline plus the note. -/
theorem cp_upload_failed (ws n cc : String) (d ft : Option String)
    (tg : Option (List String)) (now : Nat)
    (fs dfs crfs plfs ufs udfs upfs : List (String × JValue)) (pcode : JValue)
    (hws : ws ≠ "") (hn : n ≠ "") (hcc : cc ≠ "")
    (he : lookupF fs "errors" = none)
    (hd : lookupF fs "data" = some (.obj dfs))
    (hcr : lookupF dfs "createPipeline" = some (.obj crfs))
    (hsucc : ((lookupF crfs "success").getD .null).truthy = true)
    (hpl : lookupF crfs "pipeline" = some (.obj plfs))
    (hplt : (JValue.obj plfs).truthy = true)
    (hcode : lookupF plfs "code" = some pcode)
    (hue : lookupF ufs "errors" = none)
    (hud : lookupF ufs "data" = some (.obj udfs))
    (hup : lookupF udfs "uploadPipeline" = some (.obj upfs))
    (husucc : ((lookupF upfs "success").getD .null).truthy = false) :
    create_pipeline true ws n cc d ft tg now none (.ok (.obj fs)) (.ok (.obj ufs)) =
      (.obj [("error", .str ("Failed to upload pipeline code: "
               ++ renderJ ((lookupF upfs "errors").getD (.arr [])))),
             ("pipeline", .obj plfs),
             ("note", .str "Pipeline was created but code upload failed")],
       [createCallOf ws n ft tg,
        uploadCallOf ws pcode d (_create_pipeline_zipfile now cc)]) := by
  simp [create_pipeline, createPhase1, uploadPhase, pyContains, pyGetD, pyGet1, pyIndex,
    hws, hn, hcc, he, hd, hcr, hsucc, hpl, hplt, hcode, hue, hud, hup, husucc]

/-- `create_pipeline` when the upload call itself raises: the outer
handler fires and the created pipeline is NOT kept in the result. -/
theorem cp_upload_exn (ws n cc : String) (d ft : Option String) (tg : Option (List String))
    (now : Nat) (m : String)
    (fs dfs crfs plfs : List (String × JValue)) (pcode : JValue)
    (hws : ws ≠ "") (hn : n ≠ "") (hcc : cc ≠ "")
    (he : lookupF fs "errors" = none)
    (hd : lookupF fs "data" = some (.obj dfs))
    (hcr : lookupF dfs "createPipeline" = some (.obj crfs))
    (hsucc : ((lookupF crfs "success").getD .null).truthy = true)
    (hpl : lookupF crfs "pipeline" = some (.obj plfs))
    (hplt : (JValue.obj plfs).truthy = true)
    (hcode : lookupF plfs "code" = some pcode) :
    create_pipeline true ws n cc d ft tg now none (.ok (.obj fs)) (.error m) =
      (errObj ("Failed to create pipeline: " ++ m),
       [createCallOf ws n ft tg,
        uploadCallOf ws pcode d (_create_pipeline_zipfile now cc)]) := by
  simp [create_pipeline, createPhase1, pyContains, pyGetD, pyGet1, pyIndex,
    hws, hn, hcc, he, hd, hcr, hsucc, hpl, hplt, hcode]

/-- `create_pipeline` full success: both calls made, success result. -/
theorem cp_success (ws n cc : String) (d ft : Option String)
    (tg : Option (List String)) (now : Nat)
    (fs dfs crfs plfs ufs udfs upfs : List (String × JValue)) (pcode : JValue)
    (hws : ws ≠ "") (hn : n ≠ "") (hcc : cc ≠ "")
    (he : lookupF fs "errors" = none)
    (hd : lookupF fs "data" = some (.obj dfs))
    (hcr : lookupF dfs "createPipeline" = some (.obj crfs))
    (hsucc : ((lookupF crfs "success").getD .null).truthy = true)
    (hpl : lookupF crfs "pipeline" = some (.obj plfs))
    (hplt : (JValue.obj plfs).truthy = true)
    (hcode : lookupF plfs "code" = some pcode)
    (hue : lookupF ufs "errors" = none)
    (hud : lookupF ufs "data" = some (.obj udfs))
    (hup : lookupF udfs "uploadPipeline" = some (.obj upfs))
    (husucc : ((lookupF upfs "success").getD .null).truthy = true) :
    create_pipeline true ws n cc d ft tg now none (.ok (.obj fs)) (.ok (.obj ufs)) =
      (.obj [("success", .bool true), ("pipeline", .obj plfs),
             ("message", .str ("Pipeline \x27" ++ n
               ++ "\x27 created and code uploaded successfully"))],
       [createCallOf ws n ft tg,
        uploadCallOf ws pcode d (_create_pipeline_zipfile now cc)]) := by
  simp [create_pipeline, createPhase1, uploadPhase, pyContains, pyGetD, pyGet1, pyIndex,
    hws, hn, hcc, he, hd, hcr, hsucc, hpl, hplt, hcode, hue, hud, hup, husucc]

/-! ### GraphQL-error and not-found branches of the remaining tools -/

/-- `list_connections`, GraphQL-error branch: single `error` key. -/
theorem connections_graphql (ws : String) (fs : List (String × JValue)) (ev : JValue)
    (he : lookupF fs "errors" = some ev) :
    list_connections true ws (.ok (.obj fs)) =
      (errObj ("GraphQL error: " ++ renderJ ev),
       [⟨connectionsQueryText, .obj [("slug", .str ws)]⟩]) := by
  simp [list_connections, runTool, connectionsBody, pyContains, pyIndex, he]

/-- `list_connections`, workspace-not-found branch. -/
theorem connections_notfound (ws : String) (fs dfs : List (String × JValue))
    (he : lookupF fs "errors" = none)
    (hd : lookupF fs "data" = some (.obj dfs))
    (hw : ((lookupF dfs "workspace").getD .null).truthy = false) :
    list_connections true ws (.ok (.obj fs)) =
      (errObj ("Workspace \x27" ++ ws ++ "\x27 not found"),
       [⟨connectionsQueryText, .obj [("slug", .str ws)]⟩]) := by
  simp [list_connections, runTool, connectionsBody, pyContains, pyGetD, pyGet1, pyIndex,
    he, hd, hw]

/-- `list_webapps`, GraphQL-error branch. -/
theorem webapps_graphql (ws : String) (p pp : Int) (fs : List (String × JValue)) (ev : JValue)
    (he : lookupF fs "errors" = some ev) :
    list_webapps true ws p pp (.ok (.obj fs)) =
      (errObj ("GraphQL error: " ++ renderJ ev),
       [⟨webappsQueryText, .obj [("slug", .str ws), ("page", .num p),
          ("perPage", .num pp)]⟩]) := by
  simp [list_webapps, runTool, webappsBody, pyContains, pyIndex, he]

/-- `list_webapps`, workspace-not-found branch. -/
theorem webapps_notfound (ws : String) (p pp : Int) (fs dfs : List (String × JValue))
    (he : lookupF fs "errors" = none)
    (hd : lookupF fs "data" = some (.obj dfs))
    (hw : ((lookupF dfs "workspace").getD .null).truthy = false) :
    list_webapps true ws p pp (.ok (.obj fs)) =
      (errObj ("Workspace \x27" ++ ws ++ "\x27 not found"),
       [⟨webappsQueryText, .obj [("slug", .str ws), ("page", .num p),
          ("perPage", .num pp)]⟩]) := by
  simp [list_webapps, runTool, webappsBody, pyContains, pyGetD, pyGet1, pyIndex, he, hd, hw]

/-- `list_dataset_versions`, GraphQL-error branch. -/
theorem versions_graphql (did : String) (fs : List (String × JValue)) (ev : JValue)
    (he : lookupF fs "errors" = some ev) :
    list_dataset_versions true did (.ok (.obj fs)) =
      (errObj ("GraphQL error: " ++ renderJ ev),
       [⟨datasetVersionsQueryText, .obj [("id", .str did)]⟩]) := by
  simp [list_dataset_versions, runTool, datasetVersionsBody, pyContains, pyIndex, he]

/-- `list_dataset_versions`, dataset-not-found branch. -/
theorem versions_notfound (did : String) (fs dfs : List (String × JValue))
    (he : lookupF fs "errors" = none)
    (hd : lookupF fs "data" = some (.obj dfs))
    (hds : ((lookupF dfs "dataset").getD .null).truthy = false) :
    list_dataset_versions true did (.ok (.obj fs)) =
      (errObj ("Dataset \x27" ++ did ++ "\x27 not found"),
       [⟨datasetVersionsQueryText, .obj [("id", .str did)]⟩]) := by
  simp [list_dataset_versions, runTool, datasetVersionsBody, pyContains, pyGetD, pyGet1,
    pyIndex, he, hd, hds]

/-- `get_dataset_version_details`, GraphQL-error branch. -/
theorem version_details_graphql (vid : String) (fs : List (String × JValue)) (ev : JValue)
    (he : lookupF fs "errors" = some ev) :
    get_dataset_version_details true vid (.ok (.obj fs)) =
      (errObj ("GraphQL error: " ++ renderJ ev),
       [⟨versionDetailsQueryText, .obj [("id", .str vid)]⟩]) := by
  simp [get_dataset_version_details, runTool, versionDetailsBody, pyContains, pyIndex, he]

/-- `get_dataset_version_details`, not-found branch. -/
theorem version_details_notfound (vid : String) (fs dfs : List (String × JValue))
    (he : lookupF fs "errors" = none)
    (hd : lookupF fs "data" = some (.obj dfs))
    (hds : ((lookupF dfs "datasetVersion").getD .null).truthy = false) :
    get_dataset_version_details true vid (.ok (.obj fs)) =
      (errObj ("Dataset version \x27" ++ vid ++ "\x27 not found"),
       [⟨versionDetailsQueryText, .obj [("id", .str vid)]⟩]) := by
  simp [get_dataset_version_details, runTool, versionDetailsBody, pyContains, pyGetD,
    pyGet1, pyIndex, he, hd, hds]

/-- `list_dataset_files`, GraphQL-error branch: the result carries
BOTH the `error` key and the raw response under `raw`. -/
theorem files_graphql (did : String) (fs : List (String × JValue)) (ev : JValue)
    (he : lookupF fs "errors" = some ev) :
    list_dataset_files true did (.ok (.obj fs)) =
      (.obj [("error", .str ("GraphQL error: " ++ renderJ ev)), ("raw", .obj fs)],
       [⟨datasetFilesQueryText, .obj [("id", .str did)]⟩]) := by
  simp [list_dataset_files, runTool, datasetFilesBody, pyContains, pyIndex, he]

/-- `list_dataset_files`, dataset-not-found branch. -/
theorem files_notfound (did : String) (fs dfs : List (String × JValue))
    (he : lookupF fs "errors" = none)
    (hd : lookupF fs "data" = some (.obj dfs))
    (hds : ((lookupF dfs "dataset").getD .null).truthy = false) :
    list_dataset_files true did (.ok (.obj fs)) =
      (errObj ("Dataset \x27" ++ did ++ "\x27 not found"),
       [⟨datasetFilesQueryText, .obj [("id", .str did)]⟩]) := by
  simp [list_dataset_files, runTool, datasetFilesBody, pyContains, pyGetD, pyGet1,
    pyIndex, he, hd, hds]

/-- `get_dataset_file_details`, GraphQL-error branch. -/
theorem file_details_graphql (fid : String) (fs : List (String × JValue)) (ev : JValue)
    (he : lookupF fs "errors" = some ev) :
    get_dataset_file_details true fid (.ok (.obj fs)) =
      (errObj ("GraphQL error: " ++ renderJ ev),
       [⟨fileDetailsQueryText, .obj [("id", .str fid)]⟩]) := by
  simp [get_dataset_file_details, runTool, fileDetailsBody, pyContains, pyIndex, he]

/-- `get_dataset_file_details`, not-found branch. -/
theorem file_details_notfound (fid : String) (fs dfs : List (String × JValue))
    (he : lookupF fs "errors" = none)
    (hd : lookupF fs "data" = some (.obj dfs))
    (hf : ((lookupF dfs "datasetVersionFile").getD .null).truthy = false) :
    get_dataset_file_details true fid (.ok (.obj fs)) =
      (errObj ("File \x27" ++ fid ++ "\x27 not found"),
       [⟨fileDetailsQueryText, .obj [("id", .str fid)]⟩]) := by
  simp [get_dataset_file_details, runTool, fileDetailsBody, pyContains, pyGetD, pyGet1,
    pyIndex, he, hd, hf]

/-- `search_datasets`, GraphQL-error branch. -/
theorem search_datasets_graphql (q : String) (p pp : Int) (fs : List (String × JValue))
    (ev : JValue) (he : lookupF fs "errors" = some ev) :
    search_datasets true q p pp (.ok (.obj fs)) =
      (errObj ("GraphQL error: " ++ renderJ ev),
       [⟨searchDatasetsQueryText, .obj [("query", .str q), ("page", .num p),
          ("perPage", .num pp)]⟩]) := by
  simp [search_datasets, runTool, searchDatasetsBody, pyContains, pyIndex, he]

/-- `list_datasets_by_creator`, GraphQL-error branch. -/
theorem by_creator_graphql (email : String) (p pp : Int) (fs : List (String × JValue))
    (ev : JValue) (he : lookupF fs "errors" = some ev) :
    list_datasets_by_creator true email p pp (.ok (.obj fs)) =
      (errObj ("GraphQL error: " ++ renderJ ev),
       [⟨byCreatorQueryText, .obj [("page", .num p), ("perPage", .num pp)]⟩]) := by
  simp [list_datasets_by_creator, runTool, byCreatorBody, pyContains, pyIndex, he]

/-- `preview_dataset_file`, GraphQL-error branch: the result carries
BOTH the `error` key and the raw response under `raw`. -/
theorem preview_graphql (fid : String) (fs : List (String × JValue)) (ev : JValue)
    (he : lookupF fs "errors" = some ev) :
    preview_dataset_file true fid (.ok (.obj fs)) =
      (.obj [("error", .str ("GraphQL error: " ++ renderJ ev)), ("raw", .obj fs)],
       [⟨previewQueryText, .obj [("id", .str fid)]⟩]) := by
  simp [preview_dataset_file, runTool, previewBody, pyContains, pyIndex, he]

/-- `preview_dataset_file`, file-not-found branch. -/
theorem preview_notfound (fid : String) (fs dfs : List (String × JValue))
    (he : lookupF fs "errors" = none)
    (hd : lookupF fs "data" = some (.obj dfs))
    (hf : ((lookupF dfs "datasetVersionFile").getD .null).truthy = false) :
    preview_dataset_file true fid (.ok (.obj fs)) =
      (errObj ("File \x27" ++ fid ++ "\x27 not found"),
       [⟨previewQueryText, .obj [("id", .str fid)]⟩]) := by
  simp [preview_dataset_file, runTool, previewBody, pyContains, pyGetD, pyGet1, pyIndex,
    he, hd, hf]

/-! ### `search_resources`: the `success` guard is never satisfied -/

/-- A `searchScan` over an output whose dictionary lacks a `success`
key appends nothing. -/
theorem searchScan_skip (q tag lk : String) (nested : Bool) (ofs : List (String × JValue))
    (acc : List JValue) (h : lookupF ofs "success" = none) :
    searchScan q tag lk nested (.obj ofs) acc = .ok acc := by
  simp [searchScan, pyGet1, pyGetD, h, JValue.truthy]

/-- No output of `list_workspaces` has a `success` key, so the
workspace scan of `search_resources` appends nothing. -/
theorem scan_lw (q : String) (nested : Bool) (tag lk : String) (p pp : Int) (r : PageResult)
    (acc : List JValue) :
    searchScan q tag lk nested (list_workspaces true p pp r).1 acc = .ok acc := by
  rcases r with e | ⟨items, tp⟩ <;>
    simp [list_workspaces, searchScan, errObj, pyGet1, pyGetD, lookupF, JValue.truthy]

/-- No output of `list_datasets` has a `success` key, so the dataset
scan of `search_resources` appends nothing. -/
theorem scan_ld (q : String) (nested : Bool) (tag lk : String) (p pp : Int)
    (ws : Option String) (r : PageResult) (acc : List JValue) :
    searchScan q tag lk nested (list_datasets true p pp ws r).1 acc = .ok acc := by
  rcases r with e | ⟨items, tp⟩
  · simp [list_datasets, searchScan, errObj, pyGet1, pyGetD, lookupF, JValue.truthy]
  · simp only [list_datasets]
    by_cases hc : (ws.getD "") ≠ ""
    · rcases hfe : filterE (dsWsFilter (ws.getD "")) items with e | ds <;>
        simp [hc, hfe, searchScan, errObj, pyGet1, pyGetD, lookupF, JValue.truthy]
    · simp [hc, searchScan, errObj, pyGet1, pyGetD, lookupF, JValue.truthy]

/-- No output of `list_pipelines` has a `success` key, so the pipeline
scan of `search_resources` appends nothing. -/
theorem scan_lp (q : String) (nested : Bool) (tag lk : String) (ws : String) (p pp : Int)
    (r : PageResult) (acc : List JValue) :
    searchScan q tag lk nested (list_pipelines true ws p pp r).1 acc = .ok acc := by
  rcases r with e | ⟨items, tp⟩ <;>
    simp [list_pipelines, searchScan, errObj, pyGet1, pyGetD, lookupF, JValue.truthy]

/-- `list_workspaces` performs one remote call when available. -/
theorem lw_count (p pp : Int) (r : PageResult) : (list_workspaces true p pp r).2 = 1 := by
  rcases r with e | ⟨items, tp⟩ <;> rfl

/-- `list_datasets` performs one remote call when available. -/
theorem ld_count (p pp : Int) (ws : Option String) (r : PageResult) :
    (list_datasets true p pp ws r).2 = 1 := by
  rcases r with e | ⟨items, tp⟩
  · rfl
  · simp only [list_datasets]
    by_cases hc : (ws.getD "") ≠ ""
    · rcases hfe : filterE (dsWsFilter (ws.getD "")) items with e | ds <;> simp [hc, hfe]
    · simp [hc]

/-- `list_pipelines` performs one remote call when available. -/
theorem lp_count (ws : String) (p pp : Int) (r : PageResult) :
    (list_pipelines true ws p pp r).2 = 1 := by
  rcases r with e | ⟨items, tp⟩ <;> rfl

/-- Whatever the transport returns (clean pages, raising calls,
matching or non-matching entries), `search_resources` produces the
success dictionary with an EMPTY result list: every delegated listing
call omits the `success` key the scan guards demand. -/
theorem search_resources_empty (q : String) (rt ws : Option String) (r1 r2 r3 : PageResult) :
    search_resources true q rt ws r1 r2 r3 =
      (.obj [("success", .bool true), ("query", .str q),
             ("results", .arr []), ("count", .num 0)],
       (if rt.getD "" = "" ∨ rt.getD "" = "workspace" then 1 else 0)
         + (if rt.getD "" = "" ∨ rt.getD "" = "dataset" then 1 else 0)
         + (if rt.getD "" = "" ∨ rt.getD "" = "pipeline" then 1 else 0)) := by
  simp only [search_resources]
  by_cases h1 : rt.getD "" = "" ∨ rt.getD "" = "workspace" <;>
    by_cases h2 : rt.getD "" = "" ∨ rt.getD "" = "dataset" <;>
      by_cases h3 : rt.getD "" = "" ∨ rt.getD "" = "pipeline" <;>
        simp [h1, h2, h3, scan_lw, scan_ld, scan_lp, lw_count, ld_count, lp_count]

/-! ### The client-side creator filter -/

/-- The creator predicate of `list_datasets_by_creator`, written as a
total function on well-shaped entries: the entry's `createdBy.email`
equals the given creator email (this is the spec's description of the
filter). -/
def creatorMatchSpec (email : String) (d : JValue) : Bool :=
  jeq ((((d.lookupJ "createdBy").getD (.obj [])).lookupJ "email").getD .null) (.str email)

/-- On entries where the dictionary navigation does not raise, the
effectful filter predicate agrees with `creatorMatchSpec`. -/
theorem creatorMatch_spec (email : String) (d : JValue)
    (h : (creatorMatch email d).isOk = true) :
    creatorMatch email d = .ok (creatorMatchSpec email d) := by
  rcases d with _ | b | nn | s | xs | dfs
  iterate 5 simp [creatorMatch, pyGetD, Except.isOk, Except.toBool] at h
  rcases hc : lookupF dfs "createdBy" with _ | cv
  · simp [creatorMatch, creatorMatchSpec, pyGetD, pyGet1, JValue.lookupJ, hc]
  · rcases cv with _ | b2 | n2 | s2 | xs2 | cfs <;>
      simp_all [creatorMatch, creatorMatchSpec, pyGetD, pyGet1, JValue.lookupJ,
        Except.isOk, Except.toBool, hc]

/-- An effectful filter whose predicate never raises is the pure
filter. -/
theorem filterE_eq_filter {α : Type} (p : α → Except String Bool) (g : α → Bool) (xs : List α)
    (h : ∀ x ∈ xs, p x = .ok (g x)) : filterE p xs = .ok (xs.filter g) := by
  induction xs with
  | nil => rfl
  | cons x xs ih =>
    have hx := h x (by simp)
    have ih2 := ih (fun y hy => h y (by simp [hy]))
    simp [filterE, hx, ih2, List.filter_cons]

/-- `list_datasets_by_creator` on a clean response whose entries all
navigate cleanly: the returned list is exactly the client-side filter
of the fetched page by `creatorMatchSpec`, in page order, with `count`
its length, and the single transport call carries only the page
variables. -/
theorem by_creator_ok (email : String) (p pp : Int) (fs dfs dsfs : List (String × JValue))
    (xs : List JValue)
    (he : lookupF fs "errors" = none)
    (hd : lookupF fs "data" = some (.obj dfs))
    (hds : lookupF dfs "datasets" = some (.obj dsfs))
    (hit : lookupF dsfs "items" = some (.arr xs))
    (hok : ∀ x ∈ xs, (creatorMatch email x).isOk = true) :
    list_datasets_by_creator true email p pp (.ok (.obj fs)) =
      (.obj [("datasets", .arr (xs.filter (creatorMatchSpec email))),
             ("count", .num (xs.filter (creatorMatchSpec email)).length),
             ("current_page", .num p), ("per_page", .num pp)],
       [⟨byCreatorQueryText, .obj [("page", .num p), ("perPage", .num pp)]⟩]) := by
  have hfe := filterE_eq_filter (creatorMatch email) (creatorMatchSpec email) xs
    (fun x hx => creatorMatch_spec email x (hok x hx))
  simp [list_datasets_by_creator, runTool, byCreatorBody, pyContains, pyGetD, pyGet1, pyIndex,
    pyIter, he, hd, hds, hit, hfe]

/-! ### Claim theorems -/

/-- C2: for every tool, when the configuration is absent
(`OPENHEXA_AVAILABLE` is false), the tool returns exactly the fixed
mapping `{"error": "OpenHEXA SDK not available. Please configure your
OpenHEXA credentials."}` and performs zero transport invocations
(empty call log / zero call count). -/
theorem claim_c2_config_gate :
    (∀ (p pp : Int) (r : PageResult), list_workspaces false p pp r = (configError, 0))
    ∧ (∀ (s : String) (r : ObjResult), get_workspace_details false s r = (configError, 0))
    ∧ (∀ (p pp : Int) (ws : Option String) (r : PageResult),
        list_datasets false p pp ws r = (configError, 0))
    ∧ (∀ (i : String) (r : ObjResult), get_dataset_details false i r = (configError, 0))
    ∧ (∀ (ws : String) (p pp : Int) (r : PageResult),
        list_pipelines false ws p pp r = (configError, 0))
    ∧ (∀ (ws c : String) (r : ObjResult), get_pipeline_details false ws c r = (configError, 0))
    ∧ (∀ (ws c : String) (r : RunsResult), get_pipeline_runs false ws c r = (configError, 0))
    ∧ (∀ (ws : String) (r : Except String (List JValue)),
        list_workspace_members false ws r = (configError, 0))
    ∧ (∀ (ws n cc : String) (d ft : Option String) (tg : Option (List String)) (now : Nat)
        (ze : Option String) (cr ur : ExecResult),
        create_pipeline false ws n cc d ft tg now ze cr ur = (configError, []))
    ∧ (∀ (ws : String) (r : ExecResult), list_connections false ws r = (configError, []))
    ∧ (∀ (ws : String) (p pp : Int) (r : ExecResult),
        list_webapps false ws p pp r = (configError, []))
    ∧ (∀ (q : String) (rt ws : Option String) (r1 r2 r3 : PageResult),
        search_resources false q rt ws r1 r2 r3 = (configError, 0))
    ∧ (∀ (i : String) (r : ExecResult), list_dataset_versions false i r = (configError, []))
    ∧ (∀ (i : String) (r : ExecResult),
        get_dataset_version_details false i r = (configError, []))
    ∧ (∀ (i : String) (r : ExecResult), list_dataset_files false i r = (configError, []))
    ∧ (∀ (i : String) (r : ExecResult), get_dataset_file_details false i r = (configError, []))
    ∧ (∀ (q : String) (p pp : Int) (r : ExecResult),
        search_datasets false q p pp r = (configError, []))
    ∧ (∀ (em : String) (p pp : Int) (r : ExecResult),
        list_datasets_by_creator false em p pp r = (configError, []))
    ∧ (∀ (i : String) (r : ExecResult), preview_dataset_file false i r = (configError, [])) :=
  ⟨fun _ _ _ => rfl, fun _ _ => rfl, fun _ _ _ _ => rfl, fun _ _ => rfl,
   fun _ _ _ _ => rfl, fun _ _ _ => rfl, fun _ _ _ => rfl, fun _ _ => rfl,
   fun _ _ _ _ _ _ _ _ _ _ => rfl, fun _ _ => rfl, fun _ _ _ _ => rfl,
   fun _ _ _ _ _ _ => rfl, fun _ _ => rfl, fun _ _ => rfl, fun _ _ => rfl,
   fun _ _ => rfl, fun _ _ _ _ => rfl, fun _ _ _ _ => rfl, fun _ _ => rfl⟩

/-- C4 (code bug witnessed): `search_resources` is supposed to return
the fetched entries matching the query case-insensitively, tagged with
their resource type; in fact its three loops are guarded by
`<helper output>.get("success")`, and no listing helper ever puts a
`success` key in its output, so the guard always fails and the result
list is ALWAYS empty.  First conjunct: for every query, resource-type
filter, scope and transport outcome, the `results` list is `[]` and
`count` is `0`.  Second conjunct evaluates the failing input: a
dataset page containing a dataset named "Health Data" searched with
query "health" and `resource_type="dataset"` still yields zero
results, where the claim demands one tagged match. -/
theorem claim_c4_search_dead_guard :
    (∀ (q : String) (rt ws : Option String) (r1 r2 r3 : PageResult),
      (search_resources true q rt ws r1 r2 r3).1 =
        .obj [("success", .bool true), ("query", .str q),
              ("results", .arr []), ("count", .num 0)])
    ∧ search_resources true "health" (some "dataset") none
        (.ok ([], .num 1))
        (.ok ([JValue.obj [("name", .str "Health Data"),
                           ("description", .str "epidemiology")]], .num 1))
        (.ok ([], .num 1)) =
      (.obj [("success", .bool true), ("query", .str "health"),
             ("results", .arr []), ("count", .num 0)], 1) := by
  constructor
  · intro q rt ws r1 r2 r3
    rw [search_resources_empty]
  · rfl

/-- C5: in `create_pipeline`, when the `createPipeline` mutation
reports failure — the response carries a GraphQL `errors` key (first
conjunct) or `createPipeline.success` is falsy (second conjunct) —
the tool returns immediately with the reported errors rendered into
the `error` value, and the transport log contains only the create
call: the `uploadPipeline` mutation is never invoked (the logged
document differs from the upload document, last two conjuncts). -/
theorem claim_c5_failure_skips_upload :
    (∀ (ws n cc : String) (d ft : Option String) (tg : Option (List String)) (now : Nat)
      (ze : Option String) (ur : ExecResult) (fs : List (String × JValue)) (ev : JValue),
      ws ≠ "" → n ≠ "" → cc ≠ "" → lookupF fs "errors" = some ev →
      create_pipeline true ws n cc d ft tg now ze (.ok (.obj fs)) ur =
        (errObj ("GraphQL error: " ++ renderJ ev), [createCallOf ws n ft tg]))
    ∧ (∀ (ws n cc : String) (d ft : Option String) (tg : Option (List String)) (now : Nat)
      (ze : Option String) (ur : ExecResult) (fs dfs crfs : List (String × JValue)),
      ws ≠ "" → n ≠ "" → cc ≠ "" →
      lookupF fs "errors" = none →
      lookupF fs "data" = some (.obj dfs) →
      lookupF dfs "createPipeline" = some (.obj crfs) →
      ((lookupF crfs "success").getD .null).truthy = false →
      create_pipeline true ws n cc d ft tg now ze (.ok (.obj fs)) ur =
        (errObj ("Failed to create pipeline: "
            ++ renderJ ((lookupF crfs "errors").getD (.arr []))),
         [createCallOf ws n ft tg]))
    ∧ (∀ (ws n : String) (ft : Option String) (tg : Option (List String)),
        (createCallOf ws n ft tg).query = createQueryText)
    ∧ createQueryText ≠ uploadQueryText := by
  refine ⟨?_, ?_, fun _ _ _ _ => rfl, by decide⟩
  · intro ws n cc d ft tg now ze ur fs ev hws hn hcc he
    exact cp_graphql_err ws n cc d ft tg now ze ur fs ev hws hn hcc he
  · intro ws n cc d ft tg now ze ur fs dfs crfs hws hn hcc he hd hcr hsucc
    exact cp_create_failed ws n cc d ft tg now ze ur fs dfs crfs hws hn hcc he hd hcr hsucc

/-- C5 witness: a concrete `createPipeline` response carrying a
GraphQL `errors` key makes `create_pipeline` return the rendered
errors with only the create call logged. -/
theorem claim_c5_witness :
    create_pipeline true "ws" "pipe" "print(1)" none none none 0 none
        (.ok (.obj [("errors", .arr [.str "boom"])])) (.ok .null) =
      (errObj ("GraphQL error: " ++ renderJ (.arr [.str "boom"])),
       [createCallOf "ws" "pipe" none none]) :=
  claim_c5_failure_skips_upload.1 "ws" "pipe" "print(1)" none none none 0 none (.ok .null)
    [("errors", .arr [.str "boom"])] (.arr [.str "boom"])
    (by decide) (by decide) (by decide) rfl

/-- C6: in `create_pipeline`, whenever the creation step succeeds
(truthy `success` and a truthy pipeline object) but a later step
fails — ZIP packaging raises (first conjunct), the upload response
carries a GraphQL `errors` key (second conjunct), or the upload
mutation reports falsy `success` (third conjunct) — the returned
mapping carries the `error` key, the `pipeline` key holding exactly
the pipeline object returned by the creation step, and the note
"Pipeline was created but code upload failed". -/
theorem claim_c6_partial_failure :
    (∀ (ws n cc : String) (d ft : Option String) (tg : Option (List String)) (now : Nat)
      (zm : String) (ur : ExecResult) (fs dfs crfs plfs : List (String × JValue))
      (pcode : JValue),
      ws ≠ "" → n ≠ "" → cc ≠ "" →
      lookupF fs "errors" = none →
      lookupF fs "data" = some (.obj dfs) →
      lookupF dfs "createPipeline" = some (.obj crfs) →
      ((lookupF crfs "success").getD .null).truthy = true →
      lookupF crfs "pipeline" = some (.obj plfs) →
      (JValue.obj plfs).truthy = true →
      lookupF plfs "code" = some pcode →
      create_pipeline true ws n cc d ft tg now (some zm) (.ok (.obj fs)) ur =
        (.obj [("error", .str ("Failed to create ZIP file: " ++ zm)),
               ("pipeline", .obj plfs),
               ("note", .str "Pipeline was created but code upload failed")],
         [createCallOf ws n ft tg]))
    ∧ (∀ (ws n cc : String) (d ft : Option String) (tg : Option (List String)) (now : Nat)
      (fs dfs crfs plfs ufs : List (String × JValue)) (pcode uev : JValue),
      ws ≠ "" → n ≠ "" → cc ≠ "" →
      lookupF fs "errors" = none →
      lookupF fs "data" = some (.obj dfs) →
      lookupF dfs "createPipeline" = some (.obj crfs) →
      ((lookupF crfs "success").getD .null).truthy = true →
      lookupF crfs "pipeline" = some (.obj plfs) →
      (JValue.obj plfs).truthy = true →
      lookupF plfs "code" = some pcode →
      lookupF ufs "errors" = some uev →
      create_pipeline true ws n cc d ft tg now none (.ok (.obj fs)) (.ok (.obj ufs)) =
        (.obj [("error", .str ("GraphQL error during upload: " ++ renderJ uev)),
               ("pipeline", .obj plfs),
               ("note", .str "Pipeline was created but code upload failed")],
         [createCallOf ws n ft tg,
          uploadCallOf ws pcode d (_create_pipeline_zipfile now cc)]))
    ∧ (∀ (ws n cc : String) (d ft : Option String) (tg : Option (List String)) (now : Nat)
      (fs dfs crfs plfs ufs udfs upfs : List (String × JValue)) (pcode : JValue),
      ws ≠ "" → n ≠ "" → cc ≠ "" →
      lookupF fs "errors" = none →
      lookupF fs "data" = some (.obj dfs) →
      lookupF dfs "createPipeline" = some (.obj crfs) →
      ((lookupF crfs "success").getD .null).truthy = true →
      lookupF crfs "pipeline" = some (.obj plfs) →
      (JValue.obj plfs).truthy = true →
      lookupF plfs "code" = some pcode →
      lookupF ufs "errors" = none →
      lookupF ufs "data" = some (.obj udfs) →
      lookupF udfs "uploadPipeline" = some (.obj upfs) →
      ((lookupF upfs "success").getD .null).truthy = false →
      create_pipeline true ws n cc d ft tg now none (.ok (.obj fs)) (.ok (.obj ufs)) =
        (.obj [("error", .str ("Failed to upload pipeline code: "
                 ++ renderJ ((lookupF upfs "errors").getD (.arr [])))),
               ("pipeline", .obj plfs),
               ("note", .str "Pipeline was created but code upload failed")],
         [createCallOf ws n ft tg,
          uploadCallOf ws pcode d (_create_pipeline_zipfile now cc)])) := by
  refine ⟨?_, ?_, ?_⟩
  · intro ws n cc d ft tg now zm ur fs dfs crfs plfs pcode hws hn hcc he hd hcr hsucc hpl
      hplt hcode
    exact cp_zip_failed ws n cc d ft tg now zm ur fs dfs crfs plfs pcode hws hn hcc he hd
      hcr hsucc hpl hplt hcode
  · intro ws n cc d ft tg now fs dfs crfs plfs ufs pcode uev hws hn hcc he hd hcr hsucc hpl
      hplt hcode hue
    exact cp_upload_graphql_err ws n cc d ft tg now fs dfs crfs plfs ufs pcode uev hws hn
      hcc he hd hcr hsucc hpl hplt hcode hue
  · intro ws n cc d ft tg now fs dfs crfs plfs ufs udfs upfs pcode hws hn hcc he hd hcr
      hsucc hpl hplt hcode hue hud hup husucc
    exact cp_upload_failed ws n cc d ft tg now fs dfs crfs plfs ufs udfs upfs pcode hws hn
      hcc he hd hcr hsucc hpl hplt hcode hue hud hup husucc

/-- C6 witness: a concrete run in which creation succeeds and ZIP
packaging raises keeps the created pipeline object in the result next
to the error and the note. -/
theorem claim_c6_witness :
    create_pipeline true "ws" "pipe" "print(1)" none none none 0 (some "MemoryError")
        (.ok (.obj [("data", .obj [("createPipeline", .obj
          [("success", .bool true),
           ("pipeline", .obj [("id", .str "p1"), ("code", .str "pipe")])])])]))
        (.ok .null) =
      (.obj [("error", .str "Failed to create ZIP file: MemoryError"),
             ("pipeline", .obj [("id", .str "p1"), ("code", .str "pipe")]),
             ("note", .str "Pipeline was created but code upload failed")],
       [createCallOf "ws" "pipe" none none]) :=
  claim_c6_partial_failure.1 "ws" "pipe" "print(1)" none none none 0 "MemoryError" (.ok .null)
    [("data", .obj [("createPipeline", .obj
      [("success", .bool true),
       ("pipeline", .obj [("id", .str "p1"), ("code", .str "pipe")])])])]
    [("createPipeline", .obj [("success", .bool true),
      ("pipeline", .obj [("id", .str "p1"), ("code", .str "pipe")])])]
    [("success", .bool true),
     ("pipeline", .obj [("id", .str "p1"), ("code", .str "pipe")])]
    [("id", .str "p1"), ("code", .str "pipe")]
    (.str "pipe")
    (by decide) (by decide) (by decide) rfl rfl rfl rfl rfl rfl rfl

/-- C7: for every source text and clock value, the base64 text
produced by `_create_pipeline_zipfile` decodes to an archive whose
member table is exactly the single member `pipeline.py` holding the
input source text; and packaging the same source at two different
timestamps yields identical decoded archives once the timestamp
metadata is ignored (`ZipArchive.members`). -/
theorem claim_c7_zip_package (code : String) (t1 t2 : Nat) :
    decodeArtifact (_create_pipeline_zipfile t1 code) =
        some ⟨[⟨"pipeline.py", code, t1⟩]⟩
    ∧ (decodeArtifact (_create_pipeline_zipfile t1 code)).map ZipArchive.members
        = some [("pipeline.py", code)]
    ∧ (decodeArtifact (_create_pipeline_zipfile t1 code)).map ZipArchive.members
        = (decodeArtifact (_create_pipeline_zipfile t2 code)).map ZipArchive.members := by
  refine ⟨decodeArtifact_zip t1 code, ?_, ?_⟩
  · rw [decodeArtifact_zip]
    rfl
  · rw [decodeArtifact_zip, decodeArtifact_zip]
    rfl

/-- C9: `list_datasets_by_creator` filters purely client-side.  First
conjunct: on a clean page whose entries navigate cleanly, the returned
`datasets` list is exactly the sublist of the page's items whose
`createdBy.email` equals the given creator email, in page order, with
`count` its length, and the one transport call carries only the
`page`/`perPage` variables.  Second conjunct: the transport call log
is the same whatever creator email is asked for.  Third conjunct: for
every transport outcome the call log is exactly the one paging call,
with no creator predicate in query or variables. -/
theorem claim_c9_client_side_filter :
    (∀ (email : String) (p pp : Int) (fs dfs dsfs : List (String × JValue))
      (xs : List JValue),
      lookupF fs "errors" = none →
      lookupF fs "data" = some (.obj dfs) →
      lookupF dfs "datasets" = some (.obj dsfs) →
      lookupF dsfs "items" = some (.arr xs) →
      (∀ x ∈ xs, (creatorMatch email x).isOk = true) →
      list_datasets_by_creator true email p pp (.ok (.obj fs)) =
        (.obj [("datasets", .arr (xs.filter (creatorMatchSpec email))),
               ("count", .num (xs.filter (creatorMatchSpec email)).length),
               ("current_page", .num p), ("per_page", .num pp)],
         [⟨byCreatorQueryText, .obj [("page", .num p), ("perPage", .num pp)]⟩]))
    ∧ (∀ (e1 e2 : String) (p pp : Int) (r : ExecResult),
        (list_datasets_by_creator true e1 p pp r).2 =
          (list_datasets_by_creator true e2 p pp r).2)
    ∧ (∀ (email : String) (p pp : Int) (r : ExecResult),
        (list_datasets_by_creator true email p pp r).2 =
          [⟨byCreatorQueryText, .obj [("page", .num p), ("perPage", .num pp)]⟩]) := by
  refine ⟨?_, ?_, ?_⟩
  · intro email p pp fs dfs dsfs xs he hd hds hit hok
    exact by_creator_ok email p pp fs dfs dsfs xs he hd hds hit hok
  · intro e1 e2 p pp r
    simp [list_datasets_by_creator, runTool_calls]
  · intro email p pp r
    simp [list_datasets_by_creator, runTool_calls]

/-- C9 witness: a concrete two-entry page filtered by creator email
keeps exactly the matching entry, `count` is 1, and the call carries
only the paging variables. -/
theorem claim_c9_witness :
    list_datasets_by_creator true "a@b.c" 1 20
        (.ok (.obj [("data", .obj [("datasets", .obj [("items", .arr
          [.obj [("id", .str "d1"), ("createdBy", .obj [("email", .str "a@b.c")])],
           .obj [("id", .str "d2"), ("createdBy", .obj [("email", .str "x@y.z")])]])])])])) =
      (.obj [("datasets", .arr
                [.obj [("id", .str "d1"), ("createdBy", .obj [("email", .str "a@b.c")])]]),
             ("count", .num 1), ("current_page", .num 1), ("per_page", .num 20)],
       [⟨byCreatorQueryText, .obj [("page", .num 1), ("perPage", .num 20)]⟩]) := by
  rw [claim_c9_client_side_filter.1 "a@b.c" 1 20
    [("data", .obj [("datasets", .obj [("items", .arr
      [.obj [("id", .str "d1"), ("createdBy", .obj [("email", .str "a@b.c")])],
       .obj [("id", .str "d2"), ("createdBy", .obj [("email", .str "x@y.z")])]])])])]
    [("datasets", .obj [("items", .arr
      [.obj [("id", .str "d1"), ("createdBy", .obj [("email", .str "a@b.c")])],
       .obj [("id", .str "d2"), ("createdBy", .obj [("email", .str "x@y.z")])]])])]
    [("items", .arr
      [.obj [("id", .str "d1"), ("createdBy", .obj [("email", .str "a@b.c")])],
       .obj [("id", .str "d2"), ("createdBy", .obj [("email", .str "x@y.z")])]])]
    [.obj [("id", .str "d1"), ("createdBy", .obj [("email", .str "a@b.c")])],
     .obj [("id", .str "d2"), ("createdBy", .obj [("email", .str "x@y.z")])]]
    rfl rfl rfl rfl (by decide)]
  rfl

/-- C10: with configuration present, `create_pipeline` called with an
empty `workspace_slug`, an empty `name`, or an empty `code_content`
returns the fixed required-arguments error without invoking the
transport at all (empty call log). -/
theorem claim_c10_required_args (ws n cc : String) (d ft : Option String)
    (tg : Option (List String)) (now : Nat) (ze : Option String) (cr ur : ExecResult)
    (h : ws = "" ∨ n = "" ∨ cc = "") :
    create_pipeline true ws n cc d ft tg now ze cr ur =
      (errObj "workspace_slug, name, and code_content are required", []) :=
  cp_validation ws n cc d ft tg now ze cr ur h

/-- C10 witness: concrete empty workspace slug. -/
theorem claim_c10_witness :
    create_pipeline true "" "pipe" "print(1)" none none none 0 none (.ok .null) (.ok .null) =
      (errObj "workspace_slug, name, and code_content are required", []) :=
  claim_c10_required_args "" "pipe" "print(1)" none none none 0 none (.ok .null) (.ok .null)
    (Or.inl rfl)

/-- C1 counterexample: `list_webapps` on a clean transport response
carrying a webapp list returns the list under `webapps` but NO
`count` key at all, refuting the claim that every listed operation
pairs the resource list with a `count` equal to its length. -/
theorem claim_c1_counterexample :
    (list_webapps true "demo" 1 10 (.ok (.obj [("data", .obj [("workspace", .obj
        [("webapps", .obj [("items", .arr [.obj [("id", .str "w1")]]),
          ("pageNumber", .num 1), ("totalItems", .num 1), ("totalPages", .num 1)])])])]))).1
      = .obj [("webapps", .arr [.obj [("id", .str "w1")]]), ("total_pages", .num 1),
              ("total_items", .num 1), ("current_page", .num 1)]
    ∧ ((list_webapps true "demo" 1 10 (.ok (.obj [("data", .obj [("workspace", .obj
        [("webapps", .obj [("items", .arr [.obj [("id", .str "w1")]]),
          ("pageNumber", .num 1), ("totalItems", .num 1), ("totalPages", .num 1)])])])]))).1
        ).lookupJ "count" = none :=
  ⟨rfl, rfl⟩

/-- C1 (amended): for the listing operations `list_workspaces`,
`list_datasets`, `list_pipelines`, `list_connections`,
`list_dataset_versions`, `list_dataset_files`, `search_datasets` and
`list_datasets_by_creator`, whenever the transport returns a response
with no errors and a resource list, the returned mapping holds the
returned list under its resource-named key together with `count`
equal to that list's length; `list_webapps`, however, returns the
list under `webapps` with paging metadata and no `count` key. -/
theorem claim_c1_amended :
    (∀ (p pp : Int) (items : List JValue) (tp : JValue),
      list_workspaces true p pp (.ok (items, tp)) =
        (.obj [("workspaces", .arr items), ("total_pages", tp), ("current_page", .num p),
               ("per_page", .num pp), ("count", .num items.length)], 1))
    ∧ (∀ (p pp : Int) (items : List JValue) (tp : JValue),
      list_datasets true p pp none (.ok (items, tp)) =
        (.obj [("datasets", .arr items), ("total_pages", tp), ("current_page", .num p),
               ("per_page", .num pp), ("count", .num items.length)], 1))
    ∧ (∀ (p pp : Int) (ws : String) (items ys : List JValue) (tp : JValue),
      ws ≠ "" → filterE (dsWsFilter ws) items = .ok ys →
      list_datasets true p pp (some ws) (.ok (items, tp)) =
        (.obj [("datasets", .arr ys), ("total_pages", tp), ("current_page", .num p),
               ("per_page", .num pp), ("count", .num ys.length)], 1))
    ∧ (∀ (ws : String) (p pp : Int) (items : List JValue) (tp : JValue),
      list_pipelines true ws p pp (.ok (items, tp)) =
        (.obj [("pipelines", .arr items), ("total_pages", tp), ("current_page", .num p),
               ("per_page", .num pp), ("count", .num items.length)], 1))
    ∧ (∀ (ws : String) (fs dfs wfs : List (String × JValue)) (cs : List JValue),
      lookupF fs "errors" = none →
      lookupF fs "data" = some (.obj dfs) →
      lookupF dfs "workspace" = some (.obj wfs) →
      wfs.isEmpty = false →
      lookupF wfs "connections" = some (.arr cs) →
      list_connections true ws (.ok (.obj fs)) =
        (.obj [("connections", .arr cs), ("count", .num cs.length)],
         [⟨connectionsQueryText, .obj [("slug", .str ws)]⟩]))
    ∧ (∀ (did : String) (fs dfs dsfs vfs : List (String × JValue)) (vs : List JValue),
      lookupF fs "errors" = none →
      lookupF fs "data" = some (.obj dfs) →
      lookupF dfs "dataset" = some (.obj dsfs) →
      (JValue.obj dsfs).truthy = true →
      lookupF dsfs "versions" = some (.obj vfs) →
      lookupF vfs "items" = some (.arr vs) →
      list_dataset_versions true did (.ok (.obj fs)) =
        (.obj [("versions", .arr vs), ("count", .num vs.length)],
         [⟨datasetVersionsQueryText, .obj [("id", .str did)]⟩]))
    ∧ (∀ (did : String) (fs dfs dsfs vfs : List (String × JValue)) (vl fl : List JValue),
      lookupF fs "errors" = none →
      lookupF fs "data" = some (.obj dfs) →
      lookupF dfs "dataset" = some (.obj dsfs) →
      (JValue.obj dsfs).truthy = true →
      lookupF dsfs "versions" = some (.obj vfs) →
      lookupF vfs "items" = some (.arr vl) →
      collectFiles vl = .ok fl →
      list_dataset_files true did (.ok (.obj fs)) =
        (.obj [("files", .arr fl), ("count", .num fl.length)],
         [⟨datasetFilesQueryText, .obj [("id", .str did)]⟩]))
    ∧ (∀ (q : String) (p pp : Int) (fs dfs dsfs : List (String × JValue)) (ti tp : JValue)
      (xs : List JValue),
      lookupF fs "errors" = none →
      lookupF fs "data" = some (.obj dfs) →
      lookupF dfs "datasets" = some (.obj dsfs) →
      lookupF dsfs "items" = some (.arr xs) →
      lookupF dsfs "totalItems" = some ti →
      lookupF dsfs "totalPages" = some tp →
      search_datasets true q p pp (.ok (.obj fs)) =
        (.obj [("datasets", .arr xs), ("count", .num xs.length),
               ("total_items", ti), ("total_pages", tp),
               ("current_page", .num p), ("per_page", .num pp)],
         [⟨searchDatasetsQueryText, .obj [("query", .str q), ("page", .num p),
            ("perPage", .num pp)]⟩]))
    ∧ (∀ (email : String) (p pp : Int) (fs dfs dsfs : List (String × JValue))
      (xs ys : List JValue),
      lookupF fs "errors" = none →
      lookupF fs "data" = some (.obj dfs) →
      lookupF dfs "datasets" = some (.obj dsfs) →
      lookupF dsfs "items" = some (.arr xs) →
      filterE (creatorMatch email) xs = .ok ys →
      list_datasets_by_creator true email p pp (.ok (.obj fs)) =
        (.obj [("datasets", .arr ys), ("count", .num ys.length),
               ("current_page", .num p), ("per_page", .num pp)],
         [⟨byCreatorQueryText, .obj [("page", .num p), ("perPage", .num pp)]⟩]))
    ∧ (∀ (ws : String) (p pp : Int) (fs dfs wfs wad : List (String × JValue))
      (items tp ti pn : JValue),
      lookupF fs "errors" = none →
      lookupF fs "data" = some (.obj dfs) →
      lookupF dfs "workspace" = some (.obj wfs) →
      (JValue.obj wfs).truthy = true →
      lookupF wfs "webapps" = some (.obj wad) →
      lookupF wad "items" = some items →
      lookupF wad "totalPages" = some tp →
      lookupF wad "totalItems" = some ti →
      lookupF wad "pageNumber" = some pn →
      (list_webapps true ws p pp (.ok (.obj fs)) =
        (.obj [("webapps", items), ("total_pages", tp), ("total_items", ti),
               ("current_page", pn)],
         [⟨webappsQueryText, .obj [("slug", .str ws), ("page", .num p),
            ("perPage", .num pp)]⟩])
       ∧ ((list_webapps true ws p pp (.ok (.obj fs))).1).lookupJ "count" = none)) := by
  refine ⟨fun _ _ _ _ => rfl, fun _ _ _ _ => rfl, ?_, fun _ _ _ _ _ => rfl, ?_, ?_, ?_,
    ?_, ?_, ?_⟩
  · intro p pp ws items ys tp hws hfe
    exact list_datasets_filtered_ok p pp ws items tp ys hws hfe
  · intro ws fs dfs wfs cs he hd hw hne hc
    exact list_connections_ok ws fs dfs wfs cs he hd hw hne hc
  · intro did fs dfs dsfs vfs vs he hd hds hnt hv hvi
    exact list_dataset_versions_ok did fs dfs dsfs vfs vs he hd hds hnt hv hvi
  · intro did fs dfs dsfs vfs vl fl he hd hds hnt hv hvi hcf
    exact list_dataset_files_ok did fs dfs dsfs vfs vl fl he hd hds hnt hv hvi hcf
  · intro q p pp fs dfs dsfs ti tp xs he hd hds hit hti htp
    exact search_datasets_ok q p pp fs dfs dsfs ti tp xs he hd hds hit hti htp
  · intro email p pp fs dfs dsfs xs ys he hd hds hit hfe
    exact by_creator_raw email p pp fs dfs dsfs xs ys he hd hds hit hfe
  · intro ws p pp fs dfs wfs wad items tp ti pn he hd hw hnt hwa hit htp hti hpn
    have hq := list_webapps_ok ws p pp fs dfs wfs wad items tp ti pn he hd hw hnt hwa hit
      htp hti hpn
    exact ⟨hq, by rw [hq]; rfl⟩

/-- C1 witness: a concrete `list_connections` run with two
connections returns them under `connections` with `count = 2`. -/
theorem claim_c1_witness :
    list_connections true "demo" (.ok (.obj [("data", .obj [("workspace", .obj
        [("connections", .arr [.obj [("id", .str "c1")], .obj [("id", .str "c2")]])])])])) =
      (.obj [("connections", .arr [.obj [("id", .str "c1")], .obj [("id", .str "c2")]]),
             ("count", .num 2)],
       [⟨connectionsQueryText, .obj [("slug", .str "demo")]⟩]) := by
  rw [claim_c1_amended.2.2.2.2.1 "demo"
    [("data", .obj [("workspace", .obj
      [("connections", .arr [.obj [("id", .str "c1")], .obj [("id", .str "c2")]])])])]
    [("workspace", .obj
      [("connections", .arr [.obj [("id", .str "c1")], .obj [("id", .str "c2")]])])]
    [("connections", .arr [.obj [("id", .str "c1")], .obj [("id", .str "c2")]])]
    [.obj [("id", .str "c1")], .obj [("id", .str "c2")]]
    rfl rfl rfl rfl rfl]
  rfl

/-- C3 counterexample: with the transport raising "boom" inside every
delegated listing call, `search_resources` returns a success-shaped
mapping with NO `error` key at all — the delegated helpers swallow
the exception — refuting the claim that every tool surfaces a raised
transport exception in an `error` value. -/
theorem claim_c3_counterexample :
    ((search_resources true "q" none none (.error "boom") (.error "boom")
        (.error "boom")).1).lookupJ "error" = none
    ∧ (search_resources true "q" none none (.error "boom") (.error "boom")
        (.error "boom")).1
      = .obj [("success", .bool true), ("query", .str "q"),
              ("results", .arr []), ("count", .num 0)] :=
  ⟨rfl, rfl⟩

/-- C3 (amended): for every tool except `search_resources`, when the
transport raises with message `m` during the call, the tool returns a
mapping whose `error` value is a string containing `m` (stated as: the
output is `{"error": pre ++ m}` for some prefix), and the exception
does not propagate (the embedding is total: the error dictionary IS
the return value).  For `search_resources`, the delegated listing
helpers catch the transport exception themselves, so it returns its
usual success-shaped mapping with no `error` key (final conjunct). -/
theorem claim_c3_amended :
    (∀ (ws n cc : String) (d ft : Option String) (tg : Option (List String)) (now : Nat)
      (ze : Option String) (m : String) (ur : ExecResult),
      ws ≠ "" → n ≠ "" → cc ≠ "" →
      ∃ pre, (create_pipeline true ws n cc d ft tg now ze (.error m) ur).1
        = errObj (pre ++ m))
    ∧ (∀ (ws n cc : String) (d ft : Option String) (tg : Option (List String)) (now : Nat)
      (m : String) (fs dfs crfs plfs : List (String × JValue)) (pcode : JValue),
      ws ≠ "" → n ≠ "" → cc ≠ "" →
      lookupF fs "errors" = none →
      lookupF fs "data" = some (.obj dfs) →
      lookupF dfs "createPipeline" = some (.obj crfs) →
      ((lookupF crfs "success").getD .null).truthy = true →
      lookupF crfs "pipeline" = some (.obj plfs) →
      (JValue.obj plfs).truthy = true →
      lookupF plfs "code" = some pcode →
      ∃ pre, (create_pipeline true ws n cc d ft tg now none (.ok (.obj fs)) (.error m)).1
        = errObj (pre ++ m))
    ∧ (∀ (p pp : Int) (m : String),
        ∃ pre, (list_workspaces true p pp (.error m)).1 = errObj (pre ++ m))
    ∧ (∀ (s m : String),
        ∃ pre, (get_workspace_details true s (.error m)).1 = errObj (pre ++ m))
    ∧ (∀ (p pp : Int) (ws : Option String) (m : String),
        ∃ pre, (list_datasets true p pp ws (.error m)).1 = errObj (pre ++ m))
    ∧ (∀ (i m : String),
        ∃ pre, (get_dataset_details true i (.error m)).1 = errObj (pre ++ m))
    ∧ (∀ (ws : String) (p pp : Int) (m : String),
        ∃ pre, (list_pipelines true ws p pp (.error m)).1 = errObj (pre ++ m))
    ∧ (∀ (ws c m : String),
        ∃ pre, (get_pipeline_details true ws c (.error m)).1 = errObj (pre ++ m))
    ∧ (∀ (ws c m : String),
        ∃ pre, (get_pipeline_runs true ws c (.error m)).1 = errObj (pre ++ m))
    ∧ (∀ (ws m : String),
        ∃ pre, (list_workspace_members true ws (.error m)).1 = errObj (pre ++ m))
    ∧ (∀ (ws m : String),
        ∃ pre, (list_connections true ws (.error m)).1 = errObj (pre ++ m))
    ∧ (∀ (ws : String) (p pp : Int) (m : String),
        ∃ pre, (list_webapps true ws p pp (.error m)).1 = errObj (pre ++ m))
    ∧ (∀ (i m : String),
        ∃ pre, (list_dataset_versions true i (.error m)).1 = errObj (pre ++ m))
    ∧ (∀ (i m : String),
        ∃ pre, (get_dataset_version_details true i (.error m)).1 = errObj (pre ++ m))
    ∧ (∀ (i m : String),
        ∃ pre, (list_dataset_files true i (.error m)).1 = errObj (pre ++ m))
    ∧ (∀ (i m : String),
        ∃ pre, (get_dataset_file_details true i (.error m)).1 = errObj (pre ++ m))
    ∧ (∀ (q : String) (p pp : Int) (m : String),
        ∃ pre, (search_datasets true q p pp (.error m)).1 = errObj (pre ++ m))
    ∧ (∀ (em : String) (p pp : Int) (m : String),
        ∃ pre, (list_datasets_by_creator true em p pp (.error m)).1 = errObj (pre ++ m))
    ∧ (∀ (i m : String),
        ∃ pre, (preview_dataset_file true i (.error m)).1 = errObj (pre ++ m))
    ∧ (∀ (q : String) (rt ws : Option String) (m1 m2 m3 : String),
        ((search_resources true q rt ws (.error m1) (.error m2) (.error m3)).1
          ).lookupJ "error" = none) := by
  refine ⟨?_, ?_, fun _ _ m => ⟨"", rfl⟩, fun _ m => ⟨"", rfl⟩,
    fun _ _ _ m => ⟨"", rfl⟩, fun _ m => ⟨"", rfl⟩, fun _ _ _ m => ⟨"", rfl⟩,
    fun _ _ m => ⟨"", rfl⟩, fun _ _ m => ⟨"", rfl⟩, fun _ m => ⟨"", rfl⟩,
    fun _ m => ⟨"Failed to list connections: ", rfl⟩,
    fun _ _ _ m => ⟨"Failed to list webapps: ", rfl⟩,
    fun _ m => ⟨"Failed to list dataset versions: ", rfl⟩,
    fun _ m => ⟨"Failed to get dataset version details: ", rfl⟩,
    fun _ m => ⟨"Failed to list dataset files: ", rfl⟩,
    fun _ m => ⟨"Failed to get file details: ", rfl⟩,
    fun _ _ _ m => ⟨"Failed to search datasets: ", rfl⟩,
    fun _ _ _ m => ⟨"Failed to list datasets by creator: ", rfl⟩,
    fun _ m => ⟨"Failed to preview file: ", rfl⟩, ?_⟩
  · intro ws n cc d ft tg now ze m ur hws hn hcc
    exact ⟨"Failed to create pipeline: ",
      by rw [cp_exn ws n cc d ft tg now ze m ur hws hn hcc]⟩
  · intro ws n cc d ft tg now m fs dfs crfs plfs pcode hws hn hcc he hd hcr hsucc hpl
      hplt hcode
    exact ⟨"Failed to create pipeline: ",
      by rw [cp_upload_exn ws n cc d ft tg now m fs dfs crfs plfs pcode hws hn hcc he hd
        hcr hsucc hpl hplt hcode]⟩
  · intro q rt ws m1 m2 m3
    rw [search_resources_empty]
    rfl

/-- C3 witness: a concrete transport exception during the
`createPipeline` call is wrapped into the `error` value. -/
theorem claim_c3_witness :
    ∃ pre, (create_pipeline true "ws" "pipe" "print(1)" none none none 0 none
        (.error "boom") (.ok .null)).1 = errObj (pre ++ "boom") :=
  claim_c3_amended.1 "ws" "pipe" "print(1)" none none none 0 none "boom" (.ok .null)
    (by decide) (by decide) (by decide)

/-- C8 counterexample: the GraphQL-error output of
`list_dataset_files` carries a second key `raw` next to `error`
(and is not the documented `create_pipeline` partial-failure case),
refuting the claim that every failure output is a single-`error`-key
mapping. -/
theorem claim_c8_counterexample :
    (list_dataset_files true "d1" (.ok (.obj [("errors", .arr [.str "x"])]))).1
      = .obj [("error", .str ("GraphQL error: " ++ renderJ (.arr [.str "x"]))),
              ("raw", .obj [("errors", .arr [.str "x"])])]
    ∧ keysOf (list_dataset_files true "d1"
        (.ok (.obj [("errors", .arr [.str "x"])]))).1 = ["error", "raw"] :=
  ⟨rfl, rfl⟩

/-- C8 (amended): every failure output of every façade operation is a
mapping whose key list is exactly `["error"]`, except (i) the
documented `create_pipeline` partial-failure outputs, whose key list
is `["error", "pipeline", "note"]`, and (ii) the GraphQL-error
outputs of `list_dataset_files` and `preview_dataset_file`, whose key
list is `["error", "raw"]`.  The conjuncts cover, for each tool, the
configuration-absent branch, the transport-exception branch, the
GraphQL-`errors` branch, the not-found branch, `list_datasets`' raising
filter, and every failure branch of `create_pipeline`.
(`search_resources` has only the configuration branch: its delegated
calls absorb all other failures, see the C3 and C4 theorems.) -/
theorem claim_c8_amended :
    (∀ (ws : String) (fs : List (String × JValue)) (ev : JValue),
      lookupF fs "errors" = some ev →
      keysOf (list_connections true ws (.ok (.obj fs))).1 = ["error"])
    -- configuration-absent branch of each tool
    ∧ (∀ (p pp : Int) (r : PageResult), keysOf (list_workspaces false p pp r).1 = ["error"])
    ∧ (∀ (s : String) (r : ObjResult), keysOf (get_workspace_details false s r).1 = ["error"])
    ∧ (∀ (p pp : Int) (ws : Option String) (r : PageResult),
        keysOf (list_datasets false p pp ws r).1 = ["error"])
    ∧ (∀ (i : String) (r : ObjResult), keysOf (get_dataset_details false i r).1 = ["error"])
    ∧ (∀ (ws : String) (p pp : Int) (r : PageResult),
        keysOf (list_pipelines false ws p pp r).1 = ["error"])
    ∧ (∀ (ws c : String) (r : ObjResult),
        keysOf (get_pipeline_details false ws c r).1 = ["error"])
    ∧ (∀ (ws c : String) (r : RunsResult),
        keysOf (get_pipeline_runs false ws c r).1 = ["error"])
    ∧ (∀ (ws : String) (r : Except String (List JValue)),
        keysOf (list_workspace_members false ws r).1 = ["error"])
    ∧ (∀ (ws n cc : String) (d ft : Option String) (tg : Option (List String)) (now : Nat)
        (ze : Option String) (cr ur : ExecResult),
        keysOf (create_pipeline false ws n cc d ft tg now ze cr ur).1 = ["error"])
    ∧ (∀ (ws : String) (r : ExecResult), keysOf (list_connections false ws r).1 = ["error"])
    ∧ (∀ (ws : String) (p pp : Int) (r : ExecResult),
        keysOf (list_webapps false ws p pp r).1 = ["error"])
    ∧ (∀ (q : String) (rt ws : Option String) (r1 r2 r3 : PageResult),
        keysOf (search_resources false q rt ws r1 r2 r3).1 = ["error"])
    ∧ (∀ (i : String) (r : ExecResult),
        keysOf (list_dataset_versions false i r).1 = ["error"])
    ∧ (∀ (i : String) (r : ExecResult),
        keysOf (get_dataset_version_details false i r).1 = ["error"])
    ∧ (∀ (i : String) (r : ExecResult), keysOf (list_dataset_files false i r).1 = ["error"])
    ∧ (∀ (i : String) (r : ExecResult),
        keysOf (get_dataset_file_details false i r).1 = ["error"])
    ∧ (∀ (q : String) (p pp : Int) (r : ExecResult),
        keysOf (search_datasets false q p pp r).1 = ["error"])
    ∧ (∀ (em : String) (p pp : Int) (r : ExecResult),
        keysOf (list_datasets_by_creator false em p pp r).1 = ["error"])
    ∧ (∀ (i : String) (r : ExecResult),
        keysOf (preview_dataset_file false i r).1 = ["error"])
    -- transport-exception branch of each tool
    ∧ (∀ (p pp : Int) (m : String),
        keysOf (list_workspaces true p pp (.error m)).1 = ["error"])
    ∧ (∀ (s m : String), keysOf (get_workspace_details true s (.error m)).1 = ["error"])
    ∧ (∀ (p pp : Int) (ws : Option String) (m : String),
        keysOf (list_datasets true p pp ws (.error m)).1 = ["error"])
    ∧ (∀ (i m : String), keysOf (get_dataset_details true i (.error m)).1 = ["error"])
    ∧ (∀ (ws : String) (p pp : Int) (m : String),
        keysOf (list_pipelines true ws p pp (.error m)).1 = ["error"])
    ∧ (∀ (ws c m : String), keysOf (get_pipeline_details true ws c (.error m)).1 = ["error"])
    ∧ (∀ (ws c m : String), keysOf (get_pipeline_runs true ws c (.error m)).1 = ["error"])
    ∧ (∀ (ws m : String), keysOf (list_workspace_members true ws (.error m)).1 = ["error"])
    ∧ (∀ (ws n cc : String) (d ft : Option String) (tg : Option (List String)) (now : Nat)
        (ze : Option String) (m : String) (ur : ExecResult),
        keysOf (create_pipeline true ws n cc d ft tg now ze (.error m) ur).1 = ["error"])
    ∧ (∀ (ws m : String), keysOf (list_connections true ws (.error m)).1 = ["error"])
    ∧ (∀ (ws : String) (p pp : Int) (m : String),
        keysOf (list_webapps true ws p pp (.error m)).1 = ["error"])
    ∧ (∀ (i m : String), keysOf (list_dataset_versions true i (.error m)).1 = ["error"])
    ∧ (∀ (i m : String),
        keysOf (get_dataset_version_details true i (.error m)).1 = ["error"])
    ∧ (∀ (i m : String), keysOf (list_dataset_files true i (.error m)).1 = ["error"])
    ∧ (∀ (i m : String), keysOf (get_dataset_file_details true i (.error m)).1 = ["error"])
    ∧ (∀ (q : String) (p pp : Int) (m : String),
        keysOf (search_datasets true q p pp (.error m)).1 = ["error"])
    ∧ (∀ (em : String) (p pp : Int) (m : String),
        keysOf (list_datasets_by_creator true em p pp (.error m)).1 = ["error"])
    ∧ (∀ (i m : String), keysOf (preview_dataset_file true i (.error m)).1 = ["error"])
    -- GraphQL-errors branch of each execute-based tool
    ∧ (∀ (ws : String) (p pp : Int) (fs : List (String × JValue)) (ev : JValue),
        lookupF fs "errors" = some ev →
        keysOf (list_webapps true ws p pp (.ok (.obj fs))).1 = ["error"])
    ∧ (∀ (i : String) (fs : List (String × JValue)) (ev : JValue),
        lookupF fs "errors" = some ev →
        keysOf (list_dataset_versions true i (.ok (.obj fs))).1 = ["error"])
    ∧ (∀ (i : String) (fs : List (String × JValue)) (ev : JValue),
        lookupF fs "errors" = some ev →
        keysOf (get_dataset_version_details true i (.ok (.obj fs))).1 = ["error"])
    ∧ (∀ (i : String) (fs : List (String × JValue)) (ev : JValue),
        lookupF fs "errors" = some ev →
        keysOf (get_dataset_file_details true i (.ok (.obj fs))).1 = ["error"])
    ∧ (∀ (q : String) (p pp : Int) (fs : List (String × JValue)) (ev : JValue),
        lookupF fs "errors" = some ev →
        keysOf (search_datasets true q p pp (.ok (.obj fs))).1 = ["error"])
    ∧ (∀ (em : String) (p pp : Int) (fs : List (String × JValue)) (ev : JValue),
        lookupF fs "errors" = some ev →
        keysOf (list_datasets_by_creator true em p pp (.ok (.obj fs))).1 = ["error"])
    ∧ (∀ (ws n cc : String) (d ft : Option String) (tg : Option (List String)) (now : Nat)
        (ze : Option String) (ur : ExecResult) (fs : List (String × JValue)) (ev : JValue),
        ws ≠ "" → n ≠ "" → cc ≠ "" → lookupF fs "errors" = some ev →
        keysOf (create_pipeline true ws n cc d ft tg now ze (.ok (.obj fs)) ur).1
          = ["error"])
    ∧ (∀ (i : String) (fs : List (String × JValue)) (ev : JValue),
        lookupF fs "errors" = some ev →
        keysOf (list_dataset_files true i (.ok (.obj fs))).1 = ["error", "raw"])
    ∧ (∀ (i : String) (fs : List (String × JValue)) (ev : JValue),
        lookupF fs "errors" = some ev →
        keysOf (preview_dataset_file true i (.ok (.obj fs))).1 = ["error", "raw"])
    -- not-found branch of each tool that has one
    ∧ (∀ (s : String), keysOf (get_workspace_details true s (.ok none)).1 = ["error"])
    ∧ (∀ (i : String), keysOf (get_dataset_details true i (.ok none)).1 = ["error"])
    ∧ (∀ (ws c : String), keysOf (get_pipeline_details true ws c (.ok none)).1 = ["error"])
    ∧ (∀ (ws c : String), keysOf (get_pipeline_runs true ws c (.ok none)).1 = ["error"])
    ∧ (∀ (ws : String) (fs dfs : List (String × JValue)),
        lookupF fs "errors" = none → lookupF fs "data" = some (.obj dfs) →
        ((lookupF dfs "workspace").getD .null).truthy = false →
        keysOf (list_connections true ws (.ok (.obj fs))).1 = ["error"])
    ∧ (∀ (ws : String) (p pp : Int) (fs dfs : List (String × JValue)),
        lookupF fs "errors" = none → lookupF fs "data" = some (.obj dfs) →
        ((lookupF dfs "workspace").getD .null).truthy = false →
        keysOf (list_webapps true ws p pp (.ok (.obj fs))).1 = ["error"])
    ∧ (∀ (i : String) (fs dfs : List (String × JValue)),
        lookupF fs "errors" = none → lookupF fs "data" = some (.obj dfs) →
        ((lookupF dfs "dataset").getD .null).truthy = false →
        keysOf (list_dataset_versions true i (.ok (.obj fs))).1 = ["error"])
    ∧ (∀ (i : String) (fs dfs : List (String × JValue)),
        lookupF fs "errors" = none → lookupF fs "data" = some (.obj dfs) →
        ((lookupF dfs "datasetVersion").getD .null).truthy = false →
        keysOf (get_dataset_version_details true i (.ok (.obj fs))).1 = ["error"])
    ∧ (∀ (i : String) (fs dfs : List (String × JValue)),
        lookupF fs "errors" = none → lookupF fs "data" = some (.obj dfs) →
        ((lookupF dfs "dataset").getD .null).truthy = false →
        keysOf (list_dataset_files true i (.ok (.obj fs))).1 = ["error"])
    ∧ (∀ (i : String) (fs dfs : List (String × JValue)),
        lookupF fs "errors" = none → lookupF fs "data" = some (.obj dfs) →
        ((lookupF dfs "datasetVersionFile").getD .null).truthy = false →
        keysOf (get_dataset_file_details true i (.ok (.obj fs))).1 = ["error"])
    ∧ (∀ (i : String) (fs dfs : List (String × JValue)),
        lookupF fs "errors" = none → lookupF fs "data" = some (.obj dfs) →
        ((lookupF dfs "datasetVersionFile").getD .null).truthy = false →
        keysOf (preview_dataset_file true i (.ok (.obj fs))).1 = ["error"])
    -- the raising client-side filter of list_datasets
    ∧ (∀ (p pp : Int) (ws : String) (items : List JValue) (tp : JValue) (e : String),
        ws ≠ "" → filterE (dsWsFilter ws) items = .error e →
        keysOf (list_datasets true p pp (some ws) (.ok (items, tp))).1 = ["error"])
    -- the failure branches inside create_pipeline
    ∧ (∀ (ws n cc : String) (d ft : Option String) (tg : Option (List String)) (now : Nat)
        (ze : Option String) (ur : ExecResult) (fs dfs crfs : List (String × JValue)),
        ws ≠ "" → n ≠ "" → cc ≠ "" →
        lookupF fs "errors" = none → lookupF fs "data" = some (.obj dfs) →
        lookupF dfs "createPipeline" = some (.obj crfs) →
        ((lookupF crfs "success").getD .null).truthy = false →
        keysOf (create_pipeline true ws n cc d ft tg now ze (.ok (.obj fs)) ur).1
          = ["error"])
    ∧ (∀ (ws n cc : String) (d ft : Option String) (tg : Option (List String)) (now : Nat)
        (ze : Option String) (ur : ExecResult) (fs dfs crfs : List (String × JValue)),
        ws ≠ "" → n ≠ "" → cc ≠ "" →
        lookupF fs "errors" = none → lookupF fs "data" = some (.obj dfs) →
        lookupF dfs "createPipeline" = some (.obj crfs) →
        ((lookupF crfs "success").getD .null).truthy = true →
        ((lookupF crfs "pipeline").getD .null).truthy = false →
        keysOf (create_pipeline true ws n cc d ft tg now ze (.ok (.obj fs)) ur).1
          = ["error"])
    ∧ (∀ (ws n cc : String) (d ft : Option String) (tg : Option (List String)) (now : Nat)
        (zm : String) (ur : ExecResult) (fs dfs crfs plfs : List (String × JValue))
        (pcode : JValue),
        ws ≠ "" → n ≠ "" → cc ≠ "" →
        lookupF fs "errors" = none → lookupF fs "data" = some (.obj dfs) →
        lookupF dfs "createPipeline" = some (.obj crfs) →
        ((lookupF crfs "success").getD .null).truthy = true →
        lookupF crfs "pipeline" = some (.obj plfs) →
        (JValue.obj plfs).truthy = true →
        lookupF plfs "code" = some pcode →
        keysOf (create_pipeline true ws n cc d ft tg now (some zm) (.ok (.obj fs)) ur).1
          = ["error", "pipeline", "note"])
    ∧ (∀ (ws n cc : String) (d ft : Option String) (tg : Option (List String)) (now : Nat)
        (fs dfs crfs plfs ufs : List (String × JValue)) (pcode uev : JValue),
        ws ≠ "" → n ≠ "" → cc ≠ "" →
        lookupF fs "errors" = none → lookupF fs "data" = some (.obj dfs) →
        lookupF dfs "createPipeline" = some (.obj crfs) →
        ((lookupF crfs "success").getD .null).truthy = true →
        lookupF crfs "pipeline" = some (.obj plfs) →
        (JValue.obj plfs).truthy = true →
        lookupF plfs "code" = some pcode →
        lookupF ufs "errors" = some uev →
        keysOf (create_pipeline true ws n cc d ft tg now none (.ok (.obj fs))
          (.ok (.obj ufs))).1 = ["error", "pipeline", "note"])
    ∧ (∀ (ws n cc : String) (d ft : Option String) (tg : Option (List String)) (now : Nat)
        (fs dfs crfs plfs ufs udfs upfs : List (String × JValue)) (pcode : JValue),
        ws ≠ "" → n ≠ "" → cc ≠ "" →
        lookupF fs "errors" = none → lookupF fs "data" = some (.obj dfs) →
        lookupF dfs "createPipeline" = some (.obj crfs) →
        ((lookupF crfs "success").getD .null).truthy = true →
        lookupF crfs "pipeline" = some (.obj plfs) →
        (JValue.obj plfs).truthy = true →
        lookupF plfs "code" = some pcode →
        lookupF ufs "errors" = none → lookupF ufs "data" = some (.obj udfs) →
        lookupF udfs "uploadPipeline" = some (.obj upfs) →
        ((lookupF upfs "success").getD .null).truthy = false →
        keysOf (create_pipeline true ws n cc d ft tg now none (.ok (.obj fs))
          (.ok (.obj ufs))).1 = ["error", "pipeline", "note"])
    ∧ (∀ (ws n cc : String) (d ft : Option String) (tg : Option (List String)) (now : Nat)
        (m : String) (fs dfs crfs plfs : List (String × JValue)) (pcode : JValue),
        ws ≠ "" → n ≠ "" → cc ≠ "" →
        lookupF fs "errors" = none → lookupF fs "data" = some (.obj dfs) →
        lookupF dfs "createPipeline" = some (.obj crfs) →
        ((lookupF crfs "success").getD .null).truthy = true →
        lookupF crfs "pipeline" = some (.obj plfs) →
        (JValue.obj plfs).truthy = true →
        lookupF plfs "code" = some pcode →
        keysOf (create_pipeline true ws n cc d ft tg now none (.ok (.obj fs))
          (.error m)).1 = ["error"]) := by
  refine ⟨?_,
    fun _ _ _ => rfl, fun _ _ => rfl, fun _ _ _ _ => rfl, fun _ _ => rfl,
    fun _ _ _ _ => rfl, fun _ _ _ => rfl, fun _ _ _ => rfl, fun _ _ => rfl,
    fun _ _ _ _ _ _ _ _ _ _ => rfl, fun _ _ => rfl, fun _ _ _ _ => rfl,
    fun _ _ _ _ _ _ => rfl, fun _ _ => rfl, fun _ _ => rfl, fun _ _ => rfl,
    fun _ _ => rfl, fun _ _ _ _ => rfl, fun _ _ _ _ => rfl, fun _ _ => rfl,
    fun _ _ _ => rfl, fun _ _ => rfl, fun _ _ _ _ => rfl, fun _ _ => rfl,
    fun _ _ _ _ => rfl, fun _ _ _ => rfl, fun _ _ _ => rfl, fun _ _ => rfl,
    ?_, fun _ _ => rfl, fun _ _ _ _ => rfl, fun _ _ => rfl, fun _ _ => rfl,
    fun _ _ => rfl, fun _ _ => rfl, fun _ _ _ _ => rfl, fun _ _ _ _ => rfl,
    fun _ _ => rfl,
    ?_, ?_, ?_, ?_, ?_, ?_, ?_, ?_, ?_,
    fun _ => rfl, fun _ => rfl, fun _ _ => rfl, fun _ _ => rfl,
    ?_, ?_, ?_, ?_, ?_, ?_, ?_, ?_, ?_, ?_, ?_, ?_, ?_, ?_⟩
  · intro ws fs ev he
    rw [connections_graphql ws fs ev he]
    rfl
  · intro ws n cc d ft tg now ze m ur
    by_cases h : ws = "" ∨ n = "" ∨ cc = ""
    · rw [cp_validation ws n cc d ft tg now ze (.error m) ur h]
      rfl
    · push_neg at h
      rw [cp_exn ws n cc d ft tg now ze m ur h.1 h.2.1 h.2.2]
      rfl
  · intro ws p pp fs ev he
    rw [webapps_graphql ws p pp fs ev he]
    rfl
  · intro i fs ev he
    rw [versions_graphql i fs ev he]
    rfl
  · intro i fs ev he
    rw [version_details_graphql i fs ev he]
    rfl
  · intro i fs ev he
    rw [file_details_graphql i fs ev he]
    rfl
  · intro q p pp fs ev he
    rw [search_datasets_graphql q p pp fs ev he]
    rfl
  · intro em p pp fs ev he
    rw [by_creator_graphql em p pp fs ev he]
    rfl
  · intro ws n cc d ft tg now ze ur fs ev hws hn hcc he
    rw [cp_graphql_err ws n cc d ft tg now ze ur fs ev hws hn hcc he]
    rfl
  · intro i fs ev he
    rw [files_graphql i fs ev he]
    rfl
  · intro i fs ev he
    rw [preview_graphql i fs ev he]
    rfl
  · intro ws fs dfs he hd hw
    rw [connections_notfound ws fs dfs he hd hw]
    rfl
  · intro ws p pp fs dfs he hd hw
    rw [webapps_notfound ws p pp fs dfs he hd hw]
    rfl
  · intro i fs dfs he hd hds
    rw [versions_notfound i fs dfs he hd hds]
    rfl
  · intro i fs dfs he hd hds
    rw [version_details_notfound i fs dfs he hd hds]
    rfl
  · intro i fs dfs he hd hds
    rw [files_notfound i fs dfs he hd hds]
    rfl
  · intro i fs dfs he hd hf
    rw [file_details_notfound i fs dfs he hd hf]
    rfl
  · intro i fs dfs he hd hf
    rw [preview_notfound i fs dfs he hd hf]
    rfl
  · intro p pp ws items tp e hws hfe
    rw [ld_filter_err p pp ws items tp e hws hfe]
    rfl
  · intro ws n cc d ft tg now ze ur fs dfs crfs hws hn hcc he hd hcr hsucc
    rw [cp_create_failed ws n cc d ft tg now ze ur fs dfs crfs hws hn hcc he hd hcr hsucc]
    rfl
  · intro ws n cc d ft tg now ze ur fs dfs crfs hws hn hcc he hd hcr hsucc hpl
    rw [cp_no_pipeline ws n cc d ft tg now ze ur fs dfs crfs hws hn hcc he hd hcr hsucc hpl]
    rfl
  · intro ws n cc d ft tg now zm ur fs dfs crfs plfs pcode hws hn hcc he hd hcr hsucc hpl
      hplt hcode
    rw [cp_zip_failed ws n cc d ft tg now zm ur fs dfs crfs plfs pcode hws hn hcc he hd hcr
      hsucc hpl hplt hcode]
    rfl
  · intro ws n cc d ft tg now fs dfs crfs plfs ufs pcode uev hws hn hcc he hd hcr hsucc hpl
      hplt hcode hue
    rw [cp_upload_graphql_err ws n cc d ft tg now fs dfs crfs plfs ufs pcode uev hws hn hcc
      he hd hcr hsucc hpl hplt hcode hue]
    rfl
  · intro ws n cc d ft tg now fs dfs crfs plfs ufs udfs upfs pcode hws hn hcc he hd hcr
      hsucc hpl hplt hcode hue hud hup husucc
    rw [cp_upload_failed ws n cc d ft tg now fs dfs crfs plfs ufs udfs upfs pcode hws hn
      hcc he hd hcr hsucc hpl hplt hcode hue hud hup husucc]
    rfl
  · intro ws n cc d ft tg now m fs dfs crfs plfs pcode hws hn hcc he hd hcr hsucc hpl hplt
      hcode
    rw [cp_upload_exn ws n cc d ft tg now m fs dfs crfs plfs pcode hws hn hcc he hd hcr
      hsucc hpl hplt hcode]
    rfl

/-- C8 witness: a concrete GraphQL-error response to
`list_connections` yields an output whose key list is exactly
`["error"]`. -/
theorem claim_c8_witness :
    keysOf (list_connections true "demo" (.ok (.obj [("errors", .null)]))).1 = ["error"] :=
  claim_c8_amended.1 "demo" [("errors", .null)] .null rfl
